import Mathlib

/-!
# Verification of the `formula` expression language

A shallow embedding of the `formula` repository (Go): its runtime value
model, the tree-walking evaluator (`runner.go` / the `Runner` type), the
reference-field extractor, and the scanner/parser pipeline, together with
theorems settling the specification claims.

Conventions of the embedding:

* The external arbitrary-precision decimal library
  (`github.com/ericlagergren/decimal`, variable type `*decimal.Big`) is out
  of scope for the repository and specified only through the operations the
  core uses.  It is modelled as an exact rational together with a NaN
  element (`Dec`).  Exact rational arithmetic coincides with the library on
  every value the claims exercise; context-precision rounding of `/` and
  the library's rendering of non-terminating quotients are noted where they
  would differ.  The library's NaN comparison convention is modelled as
  `Cmp = 0`; no theorem below depends on comparing a NaN.
* Go `float64` values are modelled by exact binary64 rounding of rationals
  (`roundBinary64`, `F64`), implementing IEEE-754 round-to-nearest,
  ties-to-even, including the subnormal range and overflow to infinity.
* Machine integers are `Int`/`Nat` with explicit `% 2 ^ 64` where Go
  performs a wrapping conversion (`uint64(iv)`).
-/

namespace Formula

/-- Model of the external decimal number type `*decimal.Big`: an exact
rational or a NaN.  (Infinities do not arise on any path the claims
exercise and are not modelled; a string that the library would parse as an
infinity simply fails to parse here, producing the same observable NaN in
`convToNumber`.) -/
inductive Dec where
  | nan
  | rat (q : ℚ)
deriving DecidableEq, Repr

/-- `decimal.Big.IsNaN`. -/
def Dec.isNaN : Dec → Bool
  | .nan => true
  | .rat _ => false

/-- `decimal.Big.Cmp`: three-way comparison.  The library's behaviour on a
NaN operand is its own convention; it is modelled as `0` and no theorem in
this file compares a NaN. -/
def decCmp : Dec → Dec → ℤ
  | .nan, _ => 0
  | _, .nan => 0
  | .rat p, .rat q => if p < q then -1 else if q < p then 1 else 0

/-- `decimal.Big.Add` (exact; NaN-propagating). -/
def decAdd : Dec → Dec → Dec
  | .rat p, .rat q => .rat (p + q)
  | _, _ => .nan

/-- `decimal.Big.Sub` (exact; NaN-propagating). -/
def decSub : Dec → Dec → Dec
  | .rat p, .rat q => .rat (p - q)
  | _, _ => .nan

/-- `decimal.Big.Mul` (exact; NaN-propagating). -/
def decMul : Dec → Dec → Dec
  | .rat p, .rat q => .rat (p * q)
  | _, _ => .nan

/-- `decimal.Big.Neg`. -/
def decNeg : Dec → Dec
  | .rat p => .rat (-p)
  | .nan => .nan

/-- `decimal.Big.Quo`.  The library computes in a wide-precision decimal
context; division is modelled exactly, which agrees with the library
whenever the quotient terminates (no claim divides).  Division by zero is
modelled as NaN. -/
def decQuo : Dec → Dec → Dec
  | .rat p, .rat q => if q = 0 then .nan else .rat (p / q)
  | _, _ => .nan

/-- `decimal.Big.Rem`: remainder of truncated division. -/
def decRem : Dec → Dec → Dec
  | .rat p, .rat q =>
      if q = 0 then .nan
      else .rat (p - (⌊|p| / |q|⌋ : ℚ) * (if (p < 0) ≠ (q < 0) then -q else q))
  | _, _ => .nan

/-- Truncation of a rational toward zero. -/
def ratTrunc (q : ℚ) : ℤ :=
  if q < 0 then -⌊-q⌋ else ⌊q⌋

/-- `decimal.Big.Int64` with the `ok` flag dropped (`iv, _ := n.Int64()`):
the integer part (truncation toward zero) when it fits in an `int64`,
otherwise `0` (the library leaves the value zero when `ok` is false; the
callers in the runner ignore `ok`). -/
def decInt64 : Dec → ℤ
  | .nan => 0
  | .rat q =>
      let t := ratTrunc q
      if -(2 ^ 63) ≤ t ∧ t ≤ 2 ^ 63 - 1 then t else 0

/-- One decimal digit from a character, if any. -/
def digitVal (c : Char) : Option ℕ :=
  if c.toNat ≥ 48 ∧ c.toNat ≤ 57 then some (c.toNat - 48) else none

/-- Accumulate a run of decimal digits; returns the value, the digit count
and the rest of the characters. -/
def takeDigits : List Char → ℕ → ℕ → ℕ × ℕ × List Char
  | [], acc, n => (acc, n, [])
  | c :: cs, acc, n =>
      match digitVal c with
      | some d => takeDigits cs (acc * 10 + d) (n + 1)
      | none => (acc, n, c :: cs)

/-- `decimal.Big.SetString` restricted to the plain numeric forms
`[+-]digits[.digits][(e|E)[+-]digits]` that the scanner and the runner
produce.  The library additionally accepts `inf`/`nan` spellings; those
spellings fail to parse here, and the only consumer of a failed parse
(`convToNumber`) produces NaN either way. -/
def decFromString (s : String) : Option ℚ := do
  let cs := s.toList
  let (neg, cs) :=
    match cs with
    | '-' :: rest => (true, rest)
    | '+' :: rest => (false, rest)
    | _ => (false, cs)
  let (ip, ipn, cs) := takeDigits cs 0 0
  let (fp, fpn, cs) :=
    match cs with
    | '.' :: rest => takeDigits rest 0 0
    | _ => (0, 0, cs)
  if ipn + fpn = 0 then none else
  let (ex, cs) ← (do
    match cs with
    | 'e' :: rest | 'E' :: rest =>
        let (eneg, rest) :=
          match rest with
          | '-' :: r2 => (true, r2)
          | '+' :: r2 => (false, r2)
          | _ => (false, rest)
        let (ev, evn, rest) := takeDigits rest 0 0
        if evn = 0 then none
        else some ((if eneg then -(ev : ℤ) else (ev : ℤ)), rest)
    | _ => some ((0 : ℤ), cs))
  if ¬cs.isEmpty then none else
  let mant : ℚ := (ip : ℚ) + (fp : ℚ) / ((10 : ℚ) ^ fpn)
  let scaled : ℚ := if ex ≥ 0 then mant * (10 : ℚ) ^ ex.toNat else mant / ((10 : ℚ) ^ (-ex).toNat)
  some (if neg then -scaled else scaled)

/-- `2 ^ e` as a rational, for an integer exponent. -/
def qPow2 (e : ℤ) : ℚ := (2 : ℚ) ^ e

/-- `10 ^ e` as a rational, for an integer exponent. -/
def qPow10 (e : ℤ) : ℚ := (10 : ℚ) ^ e

/-- Floor of the base-2 logarithm of a positive rational: the unique `e`
with `2 ^ e ≤ q < 2 ^ (e + 1)` (callers guard `0 < q`). -/
def qFloorLog2 (q : ℚ) : ℤ :=
  let a : ℤ := Nat.log2 q.num.natAbs
  let b : ℤ := Nat.log2 q.den
  if q < qPow2 (a - b) then a - b - 1 else a - b

/-- Floor of the base-10 logarithm of a positive rational. -/
def qFloorLog10 (q : ℚ) : ℤ :=
  let a : ℤ := Nat.log 10 q.num.natAbs
  let b : ℤ := Nat.log 10 q.den
  if q < qPow10 (a - b) then a - b - 1 else a - b

/-- Round a rational to an integer, half to even. -/
def roundHalfEven (q : ℚ) : ℤ :=
  let f := ⌊q⌋
  let r := q - (f : ℚ)
  if r < 1 / 2 then f
  else if 1 / 2 < r then f + 1
  else if f % 2 = 0 then f else f + 1

/-- Exact IEEE-754 binary64 rounding of a rational (round to nearest, ties
to even), without the overflow check: the nearest representable value as a
rational, using subnormal spacing below `2 ^ (-1022)`.  This is the value
of the Go conversion `float64(x)` whenever it does not overflow. -/
def roundBinary64 (q : ℚ) : ℚ :=
  if q = 0 then 0
  else
    let a := |q|
    let e := qFloorLog2 a
    let p : ℤ := if e < -1022 then -1074 else e - 52
    let m := roundHalfEven (a / qPow2 p)
    let r := (m : ℚ) * qPow2 p
    if q < 0 then -r else r

/-- A Go `float64` value. -/
inductive F64 where
  | nan
  | inf (neg : Bool)
  | fin (q : ℚ)
deriving DecidableEq, Repr

/-- `decimal.Big.Float64` with the exactness flag dropped
(`r, _ := n.Float64()`): correctly rounded conversion to binary64. -/
def decFloat64 : Dec → F64
  | .nan => .nan
  | .rat q =>
      let r := roundBinary64 q
      if r ≥ qPow2 1024 then .inf false
      else if r ≤ -qPow2 1024 then .inf true
      else .fin r

/-- Round a positive rational to `m` significant decimal digits, half to
even (the default context rounding mode). -/
def roundSigDigits (q : ℚ) (m : ℕ) : ℚ :=
  if q = 0 then 0
  else
    let a := |q|
    let e := qFloorLog10 a
    let k : ℤ := (m : ℤ) - 1 - e
    let r := (roundHalfEven (a * qPow10 k) : ℚ) / qPow10 k
    if q < 0 then -r else r

/-- `decimal.Big.Round n`: rounds to `n` digits of precision; the library
performs no rounding when `n ≤ 0` or the receiver is not finite. -/
def bigRound (d : Dec) (n : ℤ) : Dec :=
  match d with
  | .nan => .nan
  | .rat q => if n ≤ 0 then .rat q else .rat (roundSigDigits q n.toNat)

/-- `newDecimalBig()` (repository helper not included under `src/`): a
freshly allocated `decimal.Big`, whose value is zero. -/
def newDecimalBig : Dec := .rat 0

/-- Digits of a natural number, most significant first. -/
def natDigitsAux : ℕ → List Char → List Char
  | 0, acc => acc
  | n + 1, acc =>
      let m := n + 1
      natDigitsAux (m / 10) (Char.ofNat (48 + m % 10) :: acc)
decreasing_by exact Nat.div_lt_self (Nat.succ_pos n) (by norm_num)

/-- Decimal rendering of a natural number. -/
def natToDigits (n : ℕ) : String :=
  if n = 0 then "0" else String.mk (natDigitsAux n [])

/-- `decimal.Big.String`: canonical decimal rendering.  Exact for every
value with a terminating decimal expansion (all values the claims
exercise); a non-terminating quotient — producible only through `/`, which
the library would have rounded to context precision first — is rendered
with an explicit marker. -/
def decToString : Dec → String
  | .nan => "NaN"
  | .rat q =>
      let sign := if q < 0 then "-" else ""
      let n := q.num.natAbs
      let d := q.den
      let a := padicValNat 2 d
      let b := padicValNat 5 d
      if d = 2 ^ a * 5 ^ b then
        let k := max a b
        let m := n * 10 ^ k / d
        if k = 0 then sign ++ natToDigits m
        else
          let s := natToDigits m
          let s := if s.length ≤ k then String.mk (List.replicate (k + 1 - s.length) '0') ++ s else s
          let intPart := s.take (s.length - k)
          let fracPart := s.drop (s.length - k)
          sign ++ intPart ++ "." ++ fracPart
      else
        sign ++ natToDigits n ++ "/" ++ natToDigits d

/-! ## The runtime value universe

Go threads evaluation results through `interface{}`.  The dynamic types
that can actually flow through the evaluator are captured by `Value`:
nil, `bool`, `*decimal.Big`, `string`, `time.Time`, the `ctx` object,
`[]interface{}` (array literals and host slices), `map[string]interface{}`
(the `this` map and host objects), and host function values from the
builtin table (kept by name; their reflective signatures are opaque). -/

inductive Value where
  | null
  | bool (b : Bool)
  | num (d : Dec)
  | str (s : String)
  | timeV (t : ℤ)
  | ctxV
  | arr (xs : List Value)
  | obj (fields : List (String × Value))
  | funcV (name : String)

/-- `IsNull` (utilities.go): a nil interface, or a nil pointer.  In this
universe only the nil interface arises. -/
def IsNull : Value → Bool
  | .null => true
  | _ => false

/-- Go `%T` of a value, as used in the runner's error messages. -/
def goTypeName : Value → String
  | .null => "<nil>"
  | .bool _ => "bool"
  | .num _ => "*decimal.Big"
  | .str _ => "string"
  | .timeV _ => "time.Time"
  | .ctxV => "context.Context"
  | .arr _ => "[]interface \x7b\x7d"
  | .obj _ => "map[string]interface \x7b\x7d"
  | .funcV _ => "func"

mutual
/-- Go `fmt.Sprintf("%v", v)`, as used by the default branch of
`convToString`.  Exact for nil (`<nil>`), booleans and decimals — the only
cases a claim exercises; the rendering of the remaining host-opaque values
(times, contexts, function addresses) abbreviates `fmt`'s output. -/
def goFormatV : Value → String
  | .null => "<nil>"
  | .bool b => if b then "true" else "false"
  | .num d => decToString d
  | .str s => s
  | .timeV t => "time(" ++ natToDigits t.natAbs ++ ")"
  | .ctxV => "context.Background"
  | .arr xs => "[" ++ goFormatList xs ++ "]"
  | .obj fs => "map[" ++ goFormatFields fs ++ "]"
  | .funcV n => "func(" ++ n ++ ")"

def goFormatList : List Value → String
  | [] => ""
  | [v] => goFormatV v
  | v :: rest => goFormatV v ++ " " ++ goFormatList rest

def goFormatFields : List (String × Value) → String
  | [] => ""
  | [(k, v)] => k ++ ":" ++ goFormatV v
  | (k, v) :: rest => k ++ ":" ++ goFormatV v ++ " " ++ goFormatFields rest
end

/-- `convToString` (part_001): strings pass through, decimals render
canonically, everything else goes through `fmt.Sprintf("%v", ·)`. -/
def convToString : Value → String
  | .str s => s
  | .num d => decToString d
  | v => goFormatV v

/-- `convToNumber` (part_001): decimals pass through; strings are parsed
(`SetString`, NaN on failure); booleans become 1/0; nil becomes 0; any
other value becomes NaN. -/
def convToNumber : Value → Dec
  | .num d => d
  | .str s =>
      match decFromString s with
      | some q => .rat q
      | none => .nan
  | .bool b => if b then .rat 1 else .rat 0
  | v => if IsNull v then .rat 0 else .nan

/-- `Runner.toBool` (part_001): truthiness.  Booleans pass through;
strings are true when non-empty; decimals are true when non-zero and not
NaN; anything else is true exactly when non-nil. -/
def toBool : Value → Bool
  | .bool b => b
  | .str s => s.length > 0
  | .num d => decCmp d (.rat 0) ≠ 0 ∧ ¬d.isNaN
  | v => ¬IsNull v

/-- Go interface equality `v1 == v2` between runtime values.  Two distinct
`*decimal.Big` allocations compare unequal (pointer identity); comparing
two slices, maps or functions of the same dynamic type would panic in Go —
that case is unreachable from any claim and is modelled as false. -/
def goIfaceEq : Value → Value → Bool
  | .null, .null => true
  | .bool a, .bool b => a = b
  | .str a, .str b => a = b
  | .timeV a, .timeV b => a = b
  | .ctxV, .ctxV => true
  | _, _ => false

/-- `Runner.valueLikeEqualTo` (part_001): loose equality, dispatching on
the dynamic type of the left operand. -/
def valueLikeEqualTo (v1 v2 : Value) : Bool :=
  match v1 with
  | .num _ => decCmp (convToNumber v1) (convToNumber v2) = 0
  | .bool _ => decCmp (convToNumber v1) (convToNumber v2) = 0
  | .str _ => convToString v1 = convToString v2
  | _ => (IsNull v1 ∧ IsNull v2) ∨ goIfaceEq v1 v2

/-- `Runner.valueEqualTo` (part_001): strict equality. -/
def valueEqualTo (v1 v2 : Value) : Bool :=
  if (IsNull v1 ∧ IsNull v2) ∨ goIfaceEq v1 v2 then true
  else
    match v1, v2 with
    | .num a, .num b => decCmp a b = 0
    | .bool a, .bool b => a = b
    | .str a, .str b => a = b
    | _, _ => false

/-! ## Syntax kinds

`SyntaxKind` is a Go `int` enumeration (part_002); the `iota` numbering is
reproduced explicitly because the source compares kinds by ranges
(`IsKeyword`, `IsAssignmentOperator`, …). -/

abbrev SyntaxKind := ℕ

abbrev SK_Unknown : SyntaxKind := 0
abbrev SK_EndOfFile : SyntaxKind := 1
abbrev SK_NumberLiteral : SyntaxKind := 2
abbrev SK_StringLiteral : SyntaxKind := 3
abbrev SK_OpenParen : SyntaxKind := 4
abbrev SK_CloseParen : SyntaxKind := 5
abbrev SK_OpenBracket : SyntaxKind := 6
abbrev SK_CloseBracket : SyntaxKind := 7
abbrev SK_Dot : SyntaxKind := 8
abbrev SK_DotDotDot : SyntaxKind := 9
abbrev SK_Comma : SyntaxKind := 10
abbrev SK_LessThan : SyntaxKind := 11
abbrev SK_GreaterThan : SyntaxKind := 12
abbrev SK_LessThanEquals : SyntaxKind := 13
abbrev SK_GreaterThanEquals : SyntaxKind := 14
abbrev SK_EqualsEquals : SyntaxKind := 15
abbrev SK_EqualsEqualsEquals : SyntaxKind := 16
abbrev SK_ExclamationEquals : SyntaxKind := 17
abbrev SK_ExclamationEqualsEquals : SyntaxKind := 18
abbrev SK_Plus : SyntaxKind := 19
abbrev SK_Minus : SyntaxKind := 20
abbrev SK_Asterisk : SyntaxKind := 21
abbrev SK_Slash : SyntaxKind := 22
abbrev SK_Percent : SyntaxKind := 23
abbrev SK_Ampersand : SyntaxKind := 24
abbrev SK_Bar : SyntaxKind := 25
abbrev SK_Caret : SyntaxKind := 26
abbrev SK_AmpersandAmpersand : SyntaxKind := 27
abbrev SK_BarBar : SyntaxKind := 28
abbrev SK_QuestionQuestion : SyntaxKind := 29
abbrev SK_Exclamation : SyntaxKind := 30
abbrev SK_ExclamationDot : SyntaxKind := 31
abbrev SK_ExclamationExclamation : SyntaxKind := 32
abbrev SK_Tilde : SyntaxKind := 33
abbrev SK_Question : SyntaxKind := 34
abbrev SK_Colon : SyntaxKind := 35
abbrev SK_Equals : SyntaxKind := 36
abbrev SK_PlusEquals : SyntaxKind := 37
abbrev SK_MinusEquals : SyntaxKind := 38
abbrev SK_AsteriskEquals : SyntaxKind := 39
abbrev SK_SlashEquals : SyntaxKind := 40
abbrev SK_PercentEquals : SyntaxKind := 41
abbrev SK_LessThanLessThanEquals : SyntaxKind := 42
abbrev SK_GreaterThanGreaterThanEquals : SyntaxKind := 43
abbrev SK_GreaterThanGreaterThanGreaterThanEquals : SyntaxKind := 44
abbrev SK_AmpersandEquals : SyntaxKind := 45
abbrev SK_BarEquals : SyntaxKind := 46
abbrev SK_CaretEquals : SyntaxKind := 47
abbrev SK_Identifier : SyntaxKind := 48
abbrev SK_TrueKeyword : SyntaxKind := 49
abbrev SK_FalseKeyword : SyntaxKind := 50
abbrev SK_NullKeyword : SyntaxKind := 51
abbrev SK_ThisKeyword : SyntaxKind := 52
abbrev SK_CtxKeyword : SyntaxKind := 53
abbrev SK_TypeofKeyword : SyntaxKind := 54

abbrev SK_FirstAssignment : SyntaxKind := SK_Equals
abbrev SK_LastAssignment : SyntaxKind := SK_CaretEquals
abbrev SK_FirstKeyword : SyntaxKind := SK_TrueKeyword
abbrev SK_LastKeyword : SyntaxKind := SK_TypeofKeyword

/-- `SyntaxKind.IsAssignmentOperator`. -/
def IsAssignmentOperator (tok : SyntaxKind) : Bool :=
  SK_FirstAssignment ≤ tok ∧ tok ≤ SK_LastAssignment

/-- `SyntaxKind.IsKeyword`. -/
def IsKeyword (tok : SyntaxKind) : Bool :=
  SK_FirstKeyword ≤ tok ∧ tok ≤ SK_LastKeyword

/-- `SyntaxKind.IsIdentifier`. -/
def SKIsIdentifier (tok : SyntaxKind) : Bool :=
  tok = SK_Identifier ∨ IsKeyword tok

/-- `TokenIsIdentifierOrKeyword` (scanner.go). -/
def TokenIsIdentifierOrKeyword (tok : SyntaxKind) : Bool :=
  SK_Identifier ≤ tok

/-! ## The AST

The expression node variants of part_002.  Source ranges, node ids and
parent links are bookkeeping that no claim observes and are omitted;
`NodeList[Expression]` is a plain `List Expr`. -/

inductive Expr where
  | identifier (value : String)
  | prefixUnary (operator : SyntaxKind) (operand : Expr)
  | typeOf (expression : Expr)
  | binary (left : Expr) (operator : SyntaxKind) (right : Expr)
  | conditional (condition whenTrue whenFalse : Expr)
  | arrayLit (elements : List Expr)
  | paren (expression : Expr)
  | literal (token : SyntaxKind) (value : String)
  | selector (expression : Expr) (name : String) (assert : Bool)
  | call (expression : Expr) (arguments : List Expr) (dotDotDot : Bool)

/-- Runtime errors of the evaluator, one constructor per `errors.New` /
`fmt.Errorf` site in part_001.  Payloads record the data interpolated into
the Go message where a claim could observe it; the pretty-printed
expression text of `astToString` (a repository helper not under `src/`)
is not reproduced. -/
inductive Err where
  | unknownExpressionType
  | unknownUnaryExpression
  | unknownLiteralExpression
  | notNumberLiteral (s : String)
  | unaryNotSupportType (op : String) (tyName : String)
  | nullAccessAttribute (name : String)
  | selectorNameNotSupportType
  | callNameNotSupportType
  | assignLeftNotIdentifier
  | assignLeftNotDollar (name : String)
  | exprValueNotFunction (name : String)
  | goRuntimePanic
  | callDispatchUnmodelled (name : String)
deriving DecidableEq, Repr

/-! ## The Runner -/

/-- The runner's `this` map (`map[string]interface{}`), as an association
list with unique keys. -/
abbrev RState := List (String × Value)

/-- Go map read `m[k]` (missing key yields the interface zero value,
i.e. nil). -/
def mapGet : RState → String → Option Value
  | [], _ => none
  | (k2, v2) :: rest, k => if k2 = k then some v2 else mapGet rest k

/-- Go map write `m[k] = v`. -/
def mapSet : RState → String → Value → RState
  | [], k, v => [(k, v)]
  | (k2, v2) :: rest, k, v =>
      if k2 = k then (k, v) :: rest else (k2, v2) :: mapSet rest k v

/-- The process-wide `innerMap` built by `init()` in part_001: the two
boolean bindings plus the builtin function table (functions are opaque
values carrying their registered name). -/
def innerMapEntries : RState :=
  [("true", .bool true), ("false", .bool false)] ++
  (["now", "toDay", "date", "addDate", "year", "month", "day", "hour",
    "minute", "second", "millSecond", "weekDay", "timeFormat", "useTimezone",
    "abs", "ceil", "exp", "floor", "ln", "log", "max", "min", "round",
    "roundBank", "roundCash", "sqrt", "finite",
    "startWith", "endWith", "contains", "find", "includes", "left", "right",
    "len", "lower", "upper", "lpad", "rpad", "mid", "replace", "trim",
    "regexp", "mapToArr", "join", "toString", "toInt", "toFloat"].map
      fun n => (n, .funcV n))

/-- `innerMap.Load`. -/
def innerLoad (k : String) : Option Value := mapGet innerMapEntries k

/-- `Runner.SetThisValue`: creates the map if needed and binds the key. -/
def SetThisValue (s : RState) (k : String) (v : Value) : RState := mapSet s k v

/-- Intermediate Go values produced by the per-operator helpers before
`formatInput` normalizes them: an already-normalized value, a raw Go
`int` (from `strconv.Atoi`), or a raw `math.NaN()` float. -/
inductive GoVal where
  | val (v : Value)
  | goInt (n : ℤ)
  | goNaN

/-- `formatInput` (part_001): normalization applied to the result of every
subexpression.  A raw Go `int` goes through `SetFloat64(float64(n))`
(binary64 rounding, exact below `2 ^ 53`); `math.NaN()` formats as `NaN`
and parses back to decimal NaN; already-normalized values pass through. -/
def formatInput : GoVal → Value
  | .val v => v
  | .goInt n => .num (.rat (roundBinary64 (n : ℚ)))
  | .goNaN => .num .nan

/-- `strconv.Atoi`: decimal integer parse with optional sign, failing on
any other character and on `int64` overflow. -/
def goAtoi (s : String) : Option ℤ := do
  let cs := s.toList
  let (neg, cs) :=
    match cs with
    | '-' :: rest => (true, rest)
    | '+' :: rest => (false, rest)
    | _ => (false, cs)
  let (v, n, rest) := takeDigits cs 0 0
  if n = 0 ∨ ¬rest.isEmpty then none else
  let r : ℤ := if neg then -(v : ℤ) else (v : ℤ)
  if -(2 ^ 63) ≤ r ∧ r ≤ 2 ^ 63 - 1 then some r else none

/-- `Runner.resolvePlusUnaryExpression`. -/
def resolvePlusUnaryExpression (v : Value) : Except Err GoVal :=
  match v with
  | .num d => .ok (.val (.num d))
  | .str s =>
      match goAtoi s with
      | none => .ok .goNaN
      | some r => .ok (.goInt r)
  | .obj _ => .ok .goNaN
  | _ => .error (.unaryNotSupportType "+" (goTypeName v))

/-- `Runner.resolveMinusUnaryExpression`. -/
def resolveMinusUnaryExpression (v : Value) : Except Err GoVal :=
  match v with
  | .num d => .ok (.val (.num (decNeg d)))
  | .str s =>
      match goAtoi s with
      | none => .ok .goNaN
      | some r => .ok (.goInt (-r))
  | .obj _ => .ok .goNaN
  | _ => .error (.unaryNotSupportType "-" (goTypeName v))

/-- `Runner.resolveExclamationUnaryExpression`. -/
def resolveExclamationUnaryExpression (v : Value) : Except Err GoVal :=
  match v with
  | .bool b => .ok (.val (.bool (!b)))
  | .num d => .ok (.val (.bool (!toBool (.num d))))
  | .null => .ok (.val (.bool true))
  | _ => .error (.unaryNotSupportType "!" (goTypeName v))

/-- `Runner.resolveExclamationExclamationUnaryExpression`. -/
def resolveExclamationExclamationUnaryExpression (v : Value) : Except Err GoVal :=
  .ok (.val (.bool (toBool v)))

/-- `Runner.resolveTildeUnaryExpression`: takes the `int64` value of the
decimal and wraps it through `SetUint64(uint64(iv))` — Go's wrapping
conversion to `uint64`, with no complement applied. -/
def resolveTildeUnaryExpression (v : Value) : Except Err GoVal :=
  match v with
  | .num d =>
      let iv := decInt64 d
      .ok (.val (.num (.rat ((iv % (2 ^ 64 : ℤ)).toNat : ℚ))))
  | _ => .error (.unaryNotSupportType "~" (goTypeName v))

/-- Dispatch of `Runner.resolvePrefixUnaryExpression` on the operator
token. -/
def resolveUnaryOp (op : SyntaxKind) (v : Value) : Except Err GoVal :=
  if op = SK_Plus then resolvePlusUnaryExpression v
  else if op = SK_Minus then resolveMinusUnaryExpression v
  else if op = SK_Exclamation then resolveExclamationUnaryExpression v
  else if op = SK_Tilde then resolveTildeUnaryExpression v
  else if op = SK_ExclamationExclamation then
    resolveExclamationExclamationUnaryExpression v
  else .error .unknownUnaryExpression

/-- `Runner.resolveLessThanBinaryExpressino`. -/
def resolveLessThanBinaryExpressino (v1 v2 : Value) : Except Err GoVal :=
  match v1 with
  | .str _ => .ok (.val (.bool (convToString v1 < convToString v2)))
  | _ => .ok (.val (.bool (decCmp (convToNumber v1) (convToNumber v2) = -1)))

/-- `Runner.resolveGreaterThanBinaryExpressino`. -/
def resolveGreaterThanBinaryExpressino (v1 v2 : Value) : Except Err GoVal :=
  match v1 with
  | .str _ => .ok (.val (.bool (convToString v2 < convToString v1)))
  | _ => .ok (.val (.bool (decCmp (convToNumber v1) (convToNumber v2) = 1)))

/-- `Runner.resolveLessThanEqualsBinaryExpressino`. -/
def resolveLessThanEqualsBinaryExpressino (v1 v2 : Value) : Except Err GoVal :=
  match v1 with
  | .str _ => .ok (.val (.bool (convToString v1 ≤ convToString v2)))
  | _ => .ok (.val (.bool (decCmp (convToNumber v1) (convToNumber v2) ≤ 0)))

/-- `Runner.resolveGreaterThanEqualsBinaryExpressino`. -/
def resolveGreaterThanEqualsBinaryExpressino (v1 v2 : Value) : Except Err GoVal :=
  match v1 with
  | .str _ => .ok (.val (.bool (convToString v2 ≤ convToString v1)))
  | _ => .ok (.val (.bool (0 ≤ decCmp (convToNumber v1) (convToNumber v2))))

/-- `Runner.resolvePlusBinaryExpression`: string concatenation when the
left operand is a string, decimal addition otherwise. -/
def resolvePlusBinaryExpression (v1 v2 : Value) : Except Err GoVal :=
  match v1 with
  | .str _ => .ok (.val (.str (convToString v1 ++ convToString v2)))
  | _ => .ok (.val (.num (decAdd (convToNumber v1) (convToNumber v2))))

/-- `Runner.resolveMinusBinaryExpressino`: the string branch returns
`s1 + s2` — concatenation — exactly as written in the source. -/
def resolveMinusBinaryExpressino (v1 v2 : Value) : Except Err GoVal :=
  match v1 with
  | .str _ => .ok (.val (.str (convToString v1 ++ convToString v2)))
  | _ => .ok (.val (.num (decSub (convToNumber v1) (convToNumber v2))))

/-- `Runner.resolveAsteriskBinaryExpressino`. -/
def resolveAsteriskBinaryExpressino (v1 v2 : Value) : Except Err GoVal :=
  .ok (.val (.num (decMul (convToNumber v1) (convToNumber v2))))

/-- `Runner.resolveSlashBinaryExpression`. -/
def resolveSlashBinaryExpression (v1 v2 : Value) : Except Err GoVal :=
  .ok (.val (.num (decQuo (convToNumber v1) (convToNumber v2))))

/-- `Runner.resolvePercentBinaryExpression`. -/
def resolvePercentBinaryExpression (v1 v2 : Value) : Except Err GoVal :=
  .ok (.val (.num (decRem (convToNumber v1) (convToNumber v2))))

/-- Two's-complement `int64` view of a wrapped 64-bit pattern. -/
def toInt64 (u : ℕ) : ℤ :=
  if u < 2 ^ 63 then (u : ℤ) else (u : ℤ) - 2 ^ 64

/-- 64-bit two's-complement pattern of an `int64`. -/
def toUInt64bits (i : ℤ) : ℕ := (i % (2 ^ 64 : ℤ)).toNat

/-- `Runner.resolveAmpersandBinaryExpression`: bitwise AND of the `int64`
parts, converted back through `float64`. -/
def resolveAmpersandBinaryExpression (v1 v2 : Value) : Except Err GoVal :=
  let i := toInt64 (toUInt64bits (decInt64 (convToNumber v1)) &&&
                    toUInt64bits (decInt64 (convToNumber v2)))
  .ok (.val (.num (.rat (roundBinary64 (i : ℚ)))))

/-- `Runner.resolveBarBinaryExpression`. -/
def resolveBarBinaryExpression (v1 v2 : Value) : Except Err GoVal :=
  let i := toInt64 (toUInt64bits (decInt64 (convToNumber v1)) |||
                    toUInt64bits (decInt64 (convToNumber v2)))
  .ok (.val (.num (.rat (roundBinary64 (i : ℚ)))))

/-- `Runner.resolveCaretBinaryExpression`. -/
def resolveCaretBinaryExpression (v1 v2 : Value) : Except Err GoVal :=
  let i := toInt64 (toUInt64bits (decInt64 (convToNumber v1)) ^^^
                    toUInt64bits (decInt64 (convToNumber v2)))
  .ok (.val (.num (.rat (roundBinary64 (i : ℚ)))))

/-- `Runner.resolveAmpersandAmpersandBinaryExpression`: both operand
values are already in hand; the result is `v2` when `v1` is truthy, else
`v1` itself. -/
def resolveAmpersandAmpersandBinaryExpression (v1 v2 : Value) : Except Err GoVal :=
  if toBool v1 then .ok (.val v2) else .ok (.val v1)

/-- `Runner.resolveBarBarBinaryExpression`. -/
def resolveBarBarBinaryExpression (v1 v2 : Value) : Except Err GoVal :=
  if ¬toBool v1 then .ok (.val v2) else .ok (.val v1)

/-- `Runner.resolveCommaBinaryExpression`. -/
def resolveCommaBinaryExpression (_ v2 : Value) : Except Err GoVal :=
  .ok (.val v2)

/-- Dispatch of `Runner.resolveBinaryExpression` over the operator token
for the non-assignment operators, after both operands have been resolved.
A token with no case — notably `SK_QuestionQuestion` — falls through to
the trailing `return nil, nil`. -/
def resolveBinaryOp (op : SyntaxKind) (v1 v2 : Value) : Except Err GoVal :=
  if op = SK_LessThan then resolveLessThanBinaryExpressino v1 v2
  else if op = SK_GreaterThan then resolveGreaterThanBinaryExpressino v1 v2
  else if op = SK_LessThanEquals then resolveLessThanEqualsBinaryExpressino v1 v2
  else if op = SK_GreaterThanEquals then resolveGreaterThanEqualsBinaryExpressino v1 v2
  else if op = SK_Plus then resolvePlusBinaryExpression v1 v2
  else if op = SK_Minus then resolveMinusBinaryExpressino v1 v2
  else if op = SK_Asterisk then resolveAsteriskBinaryExpressino v1 v2
  else if op = SK_Slash then resolveSlashBinaryExpression v1 v2
  else if op = SK_Percent then resolvePercentBinaryExpression v1 v2
  else if op = SK_Ampersand then resolveAmpersandBinaryExpression v1 v2
  else if op = SK_Bar then resolveBarBinaryExpression v1 v2
  else if op = SK_Caret then resolveCaretBinaryExpression v1 v2
  else if op = SK_EqualsEquals then .ok (.val (.bool (valueLikeEqualTo v1 v2)))
  else if op = SK_ExclamationEquals then .ok (.val (.bool (!valueLikeEqualTo v1 v2)))
  else if op = SK_EqualsEqualsEquals then .ok (.val (.bool (valueEqualTo v1 v2)))
  else if op = SK_ExclamationEqualsEquals then .ok (.val (.bool (!valueEqualTo v1 v2)))
  else if op = SK_AmpersandAmpersand then resolveAmpersandAmpersandBinaryExpression v1 v2
  else if op = SK_BarBar then resolveBarBarBinaryExpression v1 v2
  else if op = SK_Comma then resolveCommaBinaryExpression v1 v2
  else .ok (.val .null)

/-- `Runner.resolveIdentifier`: the builtin table shadows the `this`
map; a name found in neither yields the map zero value, nil. -/
def resolveIdentifier (s : RState) (name : String) : Value :=
  match innerLoad name with
  | some v => v
  | none => (mapGet s name).getD .null

/-- `getObjectValueFromKey` (part_001): nil base yields nil; a map base is
indexed (an absent or zero entry yields nil); any other base yields nil.
(The reflective struct branch is unreachable — no struct host values exist
in this universe.) -/
def getObjectValueFromKey (v : Value) (key : String) : Value :=
  match v with
  | .obj fields => (mapGet fields key).getD .null
  | _ => .null

/-- `formatNilValue`. -/
def formatNilValue (v : Value) : Value :=
  if IsNull v then .null else v

/-- `resolveSelecotrNames` (part_001): the dotted name chain of a selector
expression (shared by the reference extractor). -/
def resolveSelecotrNames : Expr → Except Err (List String)
  | .selector base name _ =>
      match resolveSelecotrNames base with
      | .error e => .error e
      | .ok arr => .ok (arr ++ [name])
  | .identifier v => .ok [v]
  | _ => .error .selectorNameNotSupportType

/-- `resolveCallNames` (part_001): the dotted name chain of a call's
callee, used in call-error messages. -/
def resolveCallNames : Expr → Except Err (List String)
  | .selector base name _ =>
      match resolveCallNames base with
      | .error e => .error e
      | .ok arr => .ok (arr ++ [name])
  | .identifier v => .ok [v]
  | _ => .error .callNameNotSupportType

/-- `strings.HasPrefix`, over the character lists of the strings (stated
this way so that concrete instances evaluate inside the kernel). -/
def stringsHasPrefix (s pre : String) : Bool :=
  pre.toList.isPrefixOf s.toList

/-- `strings.Join`. -/
def stringsJoin (parts : List String) (sep : String) : String :=
  match parts with
  | [] => ""
  | [p] => p
  | p :: rest => p ++ sep ++ stringsJoin rest sep

mutual
/-- `Runner.resolve` (part_001): the evaluator.  Dispatches on the node,
threads the runner's mutable `this` map, propagates the first error, and
passes every successful result through `formatInput`. -/
def resolve (e : Expr) (s : RState) : RState × Except Err Value :=
  match e with
  | .identifier name => (s, .ok (formatInput (.val (resolveIdentifier s name))))
  | .prefixUnary op operand =>
      match resolve operand s with
      | (s1, .error err) => (s1, .error err)
      | (s1, .ok v) =>
          match resolveUnaryOp op v with
          | .error err => (s1, .error err)
          | .ok gv => (s1, .ok (formatInput gv))
  | .binary left op right =>
      if op = SK_Equals then
        -- `resolveEqualBinaryExpression`, inlined (see the standalone
        -- definition below, proved equal in `resolve_binary_equals`)
        match left with
        | .identifier name =>
            if stringsHasPrefix name "$" then
              match resolve right s with
              | (s1, .error err) => (s1, .error err)
              | (s1, .ok v) => (SetThisValue s1 name v, .ok (formatInput (.val v)))
            else (s, .error (.assignLeftNotDollar name))
        | _ => (s, .error .assignLeftNotIdentifier)
      else
        match resolve left s with
        | (s1, .error err) => (s1, .error err)
        | (s1, .ok v1) =>
            match resolve right s1 with
            | (s2, .error err) => (s2, .error err)
            | (s2, .ok v2) =>
                match resolveBinaryOp op v1 v2 with
                | .error err => (s2, .error err)
                | .ok gv => (s2, .ok (formatInput gv))
  | .arrayLit elems =>
      match resolveList elems s with
      | (s1, .error err) => (s1, .error err)
      | (s1, .ok vs) => (s1, .ok (formatInput (.val (.arr vs))))
  | .paren inner =>
      match resolve inner s with
      | (s1, .error err) => (s1, .error err)
      | (s1, .ok v) => (s1, .ok (formatInput (.val v)))
  | .literal tok val =>
      if tok = SK_TrueKeyword then (s, .ok (formatInput (.val (.bool true))))
      else if tok = SK_FalseKeyword then (s, .ok (formatInput (.val (.bool false))))
      else if tok = SK_NullKeyword then (s, .ok (formatInput (.val .null)))
      else if tok = SK_ThisKeyword then (s, .ok (formatInput (.val (.obj s))))
      else if tok = SK_CtxKeyword then (s, .ok (formatInput (.val .ctxV)))
      else if tok = SK_NumberLiteral then
        match decFromString val with
        | some q => (s, .ok (formatInput (.val (.num (.rat q)))))
        | none => (s, .error (.notNumberLiteral val))
      else if tok = SK_StringLiteral then (s, .ok (formatInput (.val (.str val))))
      else (s, .error .unknownLiteralExpression)
  | .selector base name assert =>
      match resolve base s with
      | (s1, .error err) => (s1, .error err)
      | (s1, .ok v) =>
          if IsNull v ∧ assert then (s1, .error (.nullAccessAttribute name))
          else
            (s1, .ok (formatInput (.val (formatNilValue (getObjectValueFromKey v name)))))
  | .call callee args _ =>
      match resolve callee s with
      | (s1, .error err) => (s1, .error err)
      | (s1, .ok fn) =>
          match resolveCallNames callee with
          | .error err => (s1, .error err)
          | .ok names =>
              let name := stringsJoin names "."
              match resolveList args s1 with
              | (s2, .error err) => (s2, .error err)
              | (s2, .ok _) =>
                  match fn with
                  | .funcV _ => (s2, .error (.callDispatchUnmodelled name))
                  | .null => (s2, .error .goRuntimePanic)
                  | _ => (s2, .error (.exprValueNotFunction name))
  | .conditional cond whenTrue whenFalse =>
      match resolve cond s with
      | (s1, .error err) => (s1, .error err)
      | (s1, .ok c) =>
          if toBool c then
            match resolve whenTrue s1 with
            | (s2, .error err) => (s2, .error err)
            | (s2, .ok v) => (s2, .ok (formatInput (.val v)))
          else
            match resolve whenFalse s1 with
            | (s2, .error err) => (s2, .error err)
            | (s2, .ok v) => (s2, .ok (formatInput (.val v)))
  | .typeOf inner =>
      match resolve inner s with
      | (s1, .error err) => (s1, .error err)
      | (s1, .ok v) =>
          let ty :=
            match v with
            | .bool _ => "boolean"
            | .str _ => "string"
            | .num _ => "number"
            | _ => "object"
          (s1, .ok (formatInput (.val (.str ty))))
termination_by structural e

/-- Left-to-right evaluation of an expression list (array elements, call
arguments), stopping at the first error. -/
def resolveList (es : List Expr) (s : RState) : RState × Except Err (List Value) :=
  match es with
  | [] => (s, .ok [])
  | e :: rest =>
      match resolve e s with
      | (s1, .error err) => (s1, .error err)
      | (s1, .ok v) =>
          match resolveList rest s1 with
          | (s2, .error err) => (s2, .error err)
          | (s2, .ok vs) => (s2, .ok (v :: vs))
termination_by structural es
end

/-- `Runner.resolveEqualBinaryExpression`: the left side must be an
identifier whose name starts with `$`; the right side is evaluated, bound
through `SetThisValue`, and returned. -/
def resolveEqualBinaryExpression (left right : Expr) (s : RState) :
    RState × Except Err Value :=
  match left with
  | .identifier name =>
      if stringsHasPrefix name "$" then
        match resolve right s with
        | (s1, .error err) => (s1, .error err)
        | (s1, .ok v) => (SetThisValue s1 name v, .ok (formatInput (.val v)))
      else (s, .error (.assignLeftNotDollar name))
  | _ => (s, .error .assignLeftNotIdentifier)

/-- `try2Float64` (part_001): a decimal crossing the public boundary is
converted to `float64`; every other value passes through. -/
inductive HostOut where
  | goFloat (f : F64)
  | passthrough (v : Value)

def try2Float64 : Value → HostOut
  | .num d => .goFloat (decFloat64 d)
  | v => .passthrough v

/-- `Runner.Resolve` (part_001): the public entry point — evaluate, then
apply `try2Float64` to a successful result. -/
def Resolve (e : Expr) (s : RState) : RState × Except Err HostOut :=
  match resolve e s with
  | (s1, .error err) => (s1, .error err)
  | (s1, .ok v) => (s1, .ok (try2Float64 v))

/-- `funRound` (part_001): `newDecimalBig().Round(0)` — rounds a freshly
created zero decimal; the argument `v` is never used. -/
def funRound (_v : Dec) : Except Err Dec :=
  .ok (bigRound newDecimalBig 0)

/-! ## The reference-field extractor (part_005) -/

mutual
/-- `referenceResovle.resolve` (part_005): collects, in source order, the
name of every bare identifier and the joined path of every selector chain;
literals contribute nothing; a call walks only its arguments. -/
def referenceResolve : Expr → Except Err (List String)
  | .identifier v => .ok [v]
  | .prefixUnary _ operand => referenceResolve operand
  | .typeOf inner => referenceResolve inner
  | .binary l _ r =>
      match referenceResolve l with
      | .error e => .error e
      | .ok fs1 =>
          match referenceResolve r with
          | .error e => .error e
          | .ok fs2 => .ok (fs1 ++ fs2)
  | .arrayLit elems => referenceResolveList elems
  | .paren inner => referenceResolve inner
  | .literal _ _ => .ok []
  | .selector base name assert =>
      match resolveSelecotrNames (.selector base name assert) with
      | .error e => .error e
      | .ok names => .ok [stringsJoin names "."]
  | .call _ args _ => referenceResolveList args
  | .conditional c t f =>
      match referenceResolve c with
      | .error e => .error e
      | .ok fs1 =>
          match referenceResolve t with
          | .error e => .error e
          | .ok fs2 =>
              match referenceResolve f with
              | .error e => .error e
              | .ok fs3 => .ok (fs1 ++ fs2 ++ fs3)
termination_by structural e => e

def referenceResolveList : List Expr → Except Err (List String)
  | [] => .ok []
  | e :: rest =>
      match referenceResolve e with
      | .error err => .error err
      | .ok fs1 =>
          match referenceResolveList rest with
          | .error err => .error err
          | .ok fs2 => .ok (fs1 ++ fs2)
termination_by structural es => es
end

/-- Modelled from the spec: `stringsUniq` is called by
`ResolveReferenceFields` but its definition is not under `src/`.  The spec
states "Duplicates are removed before return; order is not significant";
modelled as `List.dedup`. -/
def stringsUniq (l : List String) : List String := l.dedup

/-- `ResolveReferenceFields` (part_005), on the root expression of a
parsed source. -/
def ResolveReferenceFields (e : Expr) : Except Err (List String) :=
  match referenceResolve e with
  | .error err => .error err
  | .ok fields => .ok (stringsUniq fields)

/-- `ResolveReferenceFieldsNotLocal` (part_005): the same fields with the
`$`-prefixed names removed. -/
def ResolveReferenceFieldsNotLocal (e : Expr) : Except Err (List String) :=
  match ResolveReferenceFields e with
  | .error err => .error err
  | .ok fields => .ok (fields.filter fun f => ¬stringsHasPrefix f "$")

/-! Claim-side description of the reference set (for the refinement
statement of claim C8), written from the spec's words: every bare
identifier contributes its name, every dotted selector chain contributes
its components joined with `.`, a call contributes only its arguments (the
callee name is excluded), literals contribute nothing, and every other
node contributes its children's fields. -/

/-- The component list of a pure selector chain (`a.b.c`), if the
expression is one. -/
def specSelectorPath : Expr → Option (List String)
  | .identifier v => some [v]
  | .selector base name _ => (specSelectorPath base).map (· ++ [name])
  | _ => none

mutual
/-- The fields a formula reads, as described by the spec (see above). -/
def specReadFields : Expr → List String
  | .identifier v => [v]
  | .prefixUnary _ operand => specReadFields operand
  | .typeOf inner => specReadFields inner
  | .binary l _ r => specReadFields l ++ specReadFields r
  | .arrayLit elems => specReadFieldsList elems
  | .paren inner => specReadFields inner
  | .literal _ _ => []
  | .selector base name assert =>
      match specSelectorPath (.selector base name assert) with
      | some parts => [stringsJoin parts "."]
      | none => []
  | .call _ args _ => specReadFieldsList args
  | .conditional c t f =>
      specReadFields c ++ specReadFields t ++ specReadFields f
termination_by structural e => e

def specReadFieldsList : List Expr → List String
  | [] => []
  | e :: rest => specReadFields e ++ specReadFieldsList rest
termination_by structural es => es
end

/-- Unicode constants of part_002. -/
abbrev Uni_LineSeparator : ℕ := 0x2028
abbrev Uni_ParagraphSeparator : ℕ := 0x2029
abbrev Uni_NextLine : ℕ := 0x0085
abbrev Uni_NonBreakingSpace : ℕ := 0x00A0
abbrev Uni_EnQuad : ℕ := 0x2000
abbrev Uni_ZeroWidthSpace : ℕ := 0x200B
abbrev Uni_NarrowNoBreakSpace : ℕ := 0x202F
abbrev Uni_IdeographicSpace : ℕ := 0x3000
abbrev Uni_MathematicalSpace : ℕ := 0x205F
abbrev Uni_Ogham : ℕ := 0x1680
abbrev Uni_ByteOrderMark : ℕ := 0xFEFF

/-! The ES5 identifier range tables of scanner.go. -/

def unicodeES5IdentifierStart : List ℕ :=
 [ 170, 170, 181, 181, 186, 186, 192, 214, 216, 246, 248, 705, 710, 721, 736, 740, 748, 748, 750,
  750, 880, 884, 886, 887, 890, 893, 902, 902, 904, 906, 908, 908, 910, 929, 931, 1013, 1015,
  1153, 1162, 1319, 1329, 1366, 1369, 1369, 1377, 1415, 1488, 1514, 1520, 1522, 1568, 1610,
  1646, 1647, 1649, 1747, 1749, 1749, 1765, 1766, 1774, 1775, 1786, 1788, 1791, 1791, 1808,
  1808, 1810, 1839, 1869, 1957, 1969, 1969, 1994, 2026, 2036, 2037, 2042, 2042, 2048, 2069,
  2074, 2074, 2084, 2084, 2088, 2088, 2112, 2136, 2208, 2208, 2210, 2220, 2308, 2361, 2365,
  2365, 2384, 2384, 2392, 2401, 2417, 2423, 2425, 2431, 2437, 2444, 2447, 2448, 2451, 2472,
  2474, 2480, 2482, 2482, 2486, 2489, 2493, 2493, 2510, 2510, 2524, 2525, 2527, 2529, 2544,
  2545, 2565, 2570, 2575, 2576, 2579, 2600, 2602, 2608, 2610, 2611, 2613, 2614, 2616, 2617,
  2649, 2652, 2654, 2654, 2674, 2676, 2693, 2701, 2703, 2705, 2707, 2728, 2730, 2736, 2738,
  2739, 2741, 2745, 2749, 2749, 2768, 2768, 2784, 2785, 2821, 2828, 2831, 2832, 2835, 2856,
  2858, 2864, 2866, 2867, 2869, 2873, 2877, 2877, 2908, 2909, 2911, 2913, 2929, 2929, 2947,
  2947, 2949, 2954, 2958, 2960, 2962, 2965, 2969, 2970, 2972, 2972, 2974, 2975, 2979, 2980,
  2984, 2986, 2990, 3001, 3024, 3024, 3077, 3084, 3086, 3088, 3090, 3112, 3114, 3123, 3125,
  3129, 3133, 3133, 3160, 3161, 3168, 3169, 3205, 3212, 3214, 3216, 3218, 3240, 3242, 3251,
  3253, 3257, 3261, 3261, 3294, 3294, 3296, 3297, 3313, 3314, 3333, 3340, 3342, 3344, 3346,
  3386, 3389, 3389, 3406, 3406, 3424, 3425, 3450, 3455, 3461, 3478, 3482, 3505, 3507, 3515,
  3517, 3517, 3520, 3526, 3585, 3632, 3634, 3635, 3648, 3654, 3713, 3714, 3716, 3716, 3719,
  3720, 3722, 3722, 3725, 3725, 3732, 3735, 3737, 3743, 3745, 3747, 3749, 3749, 3751, 3751,
  3754, 3755, 3757, 3760, 3762, 3763, 3773, 3773, 3776, 3780, 3782, 3782, 3804, 3807, 3840,
  3840, 3904, 3911, 3913, 3948, 3976, 3980, 4096, 4138, 4159, 4159, 4176, 4181, 4186, 4189,
  4193, 4193, 4197, 4198, 4206, 4208, 4213, 4225, 4238, 4238, 4256, 4293, 4295, 4295, 4301,
  4301, 4304, 4346, 4348, 4680, 4682, 4685, 4688, 4694, 4696, 4696, 4698, 4701, 4704, 4744,
  4746, 4749, 4752, 4784, 4786, 4789, 4792, 4798, 4800, 4800, 4802, 4805, 4808, 4822, 4824,
  4880, 4882, 4885, 4888, 4954, 4992, 5007, 5024, 5108, 5121, 5740, 5743, 5759, 5761, 5786,
  5792, 5866, 5870, 5872, 5888, 5900, 5902, 5905, 5920, 5937, 5952, 5969, 5984, 5996, 5998,
  6000, 6016, 6067, 6103, 6103, 6108, 6108, 6176, 6263, 6272, 6312, 6314, 6314, 6320, 6389,
  6400, 6428, 6480, 6509, 6512, 6516, 6528, 6571, 6593, 6599, 6656, 6678, 6688, 6740, 6823,
  6823, 6917, 6963, 6981, 6987, 7043, 7072, 7086, 7087, 7098, 7141, 7168, 7203, 7245, 7247,
  7258, 7293, 7401, 7404, 7406, 7409, 7413, 7414, 7424, 7615, 7680, 7957, 7960, 7965, 7968,
  8005, 8008, 8013, 8016, 8023, 8025, 8025, 8027, 8027, 8029, 8029, 8031, 8061, 8064, 8116,
  8118, 8124, 8126, 8126, 8130, 8132, 8134, 8140, 8144, 8147, 8150, 8155, 8160, 8172, 8178,
  8180, 8182, 8188, 8305, 8305, 8319, 8319, 8336, 8348, 8450, 8450, 8455, 8455, 8458, 8467,
  8469, 8469, 8473, 8477, 8484, 8484, 8486, 8486, 8488, 8488, 8490, 8493, 8495, 8505, 8508,
  8511, 8517, 8521, 8526, 8526, 8544, 8584, 11264, 11310, 11312, 11358, 11360, 11492, 11499,
  11502, 11506, 11507, 11520, 11557, 11559, 11559, 11565, 11565, 11568, 11623, 11631, 11631,
  11648, 11670, 11680, 11686, 11688, 11694, 11696, 11702, 11704, 11710, 11712, 11718, 11720,
  11726, 11728, 11734, 11736, 11742, 11823, 11823, 12293, 12295, 12321, 12329, 12337, 12341,
  12344, 12348, 12353, 12438, 12445, 12447, 12449, 12538, 12540, 12543, 12549, 12589, 12593,
  12686, 12704, 12730, 12784, 12799, 13312, 19893, 19968, 40908, 40960, 42124, 42192, 42237,
  42240, 42508, 42512, 42527, 42538, 42539, 42560, 42606, 42623, 42647, 42656, 42735, 42775,
  42783, 42786, 42888, 42891, 42894, 42896, 42899, 42912, 42922, 43000, 43009, 43011, 43013,
  43015, 43018, 43020, 43042, 43072, 43123, 43138, 43187, 43250, 43255, 43259, 43259, 43274,
  43301, 43312, 43334, 43360, 43388, 43396, 43442, 43471, 43471, 43520, 43560, 43584, 43586,
  43588, 43595, 43616, 43638, 43642, 43642, 43648, 43695, 43697, 43697, 43701, 43702, 43705,
  43709, 43712, 43712, 43714, 43714, 43739, 43741, 43744, 43754, 43762, 43764, 43777, 43782,
  43785, 43790, 43793, 43798, 43808, 43814, 43816, 43822, 43968, 44002, 44032, 55203, 55216,
  55238, 55243, 55291, 63744, 64109, 64112, 64217, 64256, 64262, 64275, 64279, 64285, 64285,
  64287, 64296, 64298, 64310, 64312, 64316, 64318, 64318, 64320, 64321, 64323, 64324, 64326,
  64433, 64467, 64829, 64848, 64911, 64914, 64967, 65008, 65019, 65136, 65140, 65142, 65276,
  65313, 65338, 65345, 65370, 65382, 65470, 65474, 65479, 65482, 65487, 65490, 65495, 65498,
  65500]

def unicodeES5IdentifierPart : List ℕ :=
 [ 170, 170, 181, 181, 186, 186, 192, 214, 216, 246, 248, 705, 710, 721, 736, 740, 748, 748, 750,
  750, 768, 884, 886, 887, 890, 893, 902, 902, 904, 906, 908, 908, 910, 929, 931, 1013, 1015,
  1153, 1155, 1159, 1162, 1319, 1329, 1366, 1369, 1369, 1377, 1415, 1425, 1469, 1471, 1471,
  1473, 1474, 1476, 1477, 1479, 1479, 1488, 1514, 1520, 1522, 1552, 1562, 1568, 1641, 1646,
  1747, 1749, 1756, 1759, 1768, 1770, 1788, 1791, 1791, 1808, 1866, 1869, 1969, 1984, 2037,
  2042, 2042, 2048, 2093, 2112, 2139, 2208, 2208, 2210, 2220, 2276, 2302, 2304, 2403, 2406,
  2415, 2417, 2423, 2425, 2431, 2433, 2435, 2437, 2444, 2447, 2448, 2451, 2472, 2474, 2480,
  2482, 2482, 2486, 2489, 2492, 2500, 2503, 2504, 2507, 2510, 2519, 2519, 2524, 2525, 2527,
  2531, 2534, 2545, 2561, 2563, 2565, 2570, 2575, 2576, 2579, 2600, 2602, 2608, 2610, 2611,
  2613, 2614, 2616, 2617, 2620, 2620, 2622, 2626, 2631, 2632, 2635, 2637, 2641, 2641, 2649,
  2652, 2654, 2654, 2662, 2677, 2689, 2691, 2693, 2701, 2703, 2705, 2707, 2728, 2730, 2736,
  2738, 2739, 2741, 2745, 2748, 2757, 2759, 2761, 2763, 2765, 2768, 2768, 2784, 2787, 2790,
  2799, 2817, 2819, 2821, 2828, 2831, 2832, 2835, 2856, 2858, 2864, 2866, 2867, 2869, 2873,
  2876, 2884, 2887, 2888, 2891, 2893, 2902, 2903, 2908, 2909, 2911, 2915, 2918, 2927, 2929,
  2929, 2946, 2947, 2949, 2954, 2958, 2960, 2962, 2965, 2969, 2970, 2972, 2972, 2974, 2975,
  2979, 2980, 2984, 2986, 2990, 3001, 3006, 3010, 3014, 3016, 3018, 3021, 3024, 3024, 3031,
  3031, 3046, 3055, 3073, 3075, 3077, 3084, 3086, 3088, 3090, 3112, 3114, 3123, 3125, 3129,
  3133, 3140, 3142, 3144, 3146, 3149, 3157, 3158, 3160, 3161, 3168, 3171, 3174, 3183, 3202,
  3203, 3205, 3212, 3214, 3216, 3218, 3240, 3242, 3251, 3253, 3257, 3260, 3268, 3270, 3272,
  3274, 3277, 3285, 3286, 3294, 3294, 3296, 3299, 3302, 3311, 3313, 3314, 3330, 3331, 3333,
  3340, 3342, 3344, 3346, 3386, 3389, 3396, 3398, 3400, 3402, 3406, 3415, 3415, 3424, 3427,
  3430, 3439, 3450, 3455, 3458, 3459, 3461, 3478, 3482, 3505, 3507, 3515, 3517, 3517, 3520,
  3526, 3530, 3530, 3535, 3540, 3542, 3542, 3544, 3551, 3570, 3571, 3585, 3642, 3648, 3662,
  3664, 3673, 3713, 3714, 3716, 3716, 3719, 3720, 3722, 3722, 3725, 3725, 3732, 3735, 3737,
  3743, 3745, 3747, 3749, 3749, 3751, 3751, 3754, 3755, 3757, 3769, 3771, 3773, 3776, 3780,
  3782, 3782, 3784, 3789, 3792, 3801, 3804, 3807, 3840, 3840, 3864, 3865, 3872, 3881, 3893,
  3893, 3895, 3895, 3897, 3897, 3902, 3911, 3913, 3948, 3953, 3972, 3974, 3991, 3993, 4028,
  4038, 4038, 4096, 4169, 4176, 4253, 4256, 4293, 4295, 4295, 4301, 4301, 4304, 4346, 4348,
  4680, 4682, 4685, 4688, 4694, 4696, 4696, 4698, 4701, 4704, 4744, 4746, 4749, 4752, 4784,
  4786, 4789, 4792, 4798, 4800, 4800, 4802, 4805, 4808, 4822, 4824, 4880, 4882, 4885, 4888,
  4954, 4957, 4959, 4992, 5007, 5024, 5108, 5121, 5740, 5743, 5759, 5761, 5786, 5792, 5866,
  5870, 5872, 5888, 5900, 5902, 5908, 5920, 5940, 5952, 5971, 5984, 5996, 5998, 6000, 6002,
  6003, 6016, 6099, 6103, 6103, 6108, 6109, 6112, 6121, 6155, 6157, 6160, 6169, 6176, 6263,
  6272, 6314, 6320, 6389, 6400, 6428, 6432, 6443, 6448, 6459, 6470, 6509, 6512, 6516, 6528,
  6571, 6576, 6601, 6608, 6617, 6656, 6683, 6688, 6750, 6752, 6780, 6783, 6793, 6800, 6809,
  6823, 6823, 6912, 6987, 6992, 7001, 7019, 7027, 7040, 7155, 7168, 7223, 7232, 7241, 7245,
  7293, 7376, 7378, 7380, 7414, 7424, 7654, 7676, 7957, 7960, 7965, 7968, 8005, 8008, 8013,
  8016, 8023, 8025, 8025, 8027, 8027, 8029, 8029, 8031, 8061, 8064, 8116, 8118, 8124, 8126,
  8126, 8130, 8132, 8134, 8140, 8144, 8147, 8150, 8155, 8160, 8172, 8178, 8180, 8182, 8188,
  8204, 8205, 8255, 8256, 8276, 8276, 8305, 8305, 8319, 8319, 8336, 8348, 8400, 8412, 8417,
  8417, 8421, 8432, 8450, 8450, 8455, 8455, 8458, 8467, 8469, 8469, 8473, 8477, 8484, 8484,
  8486, 8486, 8488, 8488, 8490, 8493, 8495, 8505, 8508, 8511, 8517, 8521, 8526, 8526, 8544,
  8584, 11264, 11310, 11312, 11358, 11360, 11492, 11499, 11507, 11520, 11557, 11559, 11559,
  11565, 11565, 11568, 11623, 11631, 11631, 11647, 11670, 11680, 11686, 11688, 11694, 11696,
  11702, 11704, 11710, 11712, 11718, 11720, 11726, 11728, 11734, 11736, 11742, 11744, 11775,
  11823, 11823, 12293, 12295, 12321, 12335, 12337, 12341, 12344, 12348, 12353, 12438, 12441,
  12442, 12445, 12447, 12449, 12538, 12540, 12543, 12549, 12589, 12593, 12686, 12704, 12730,
  12784, 12799, 13312, 19893, 19968, 40908, 40960, 42124, 42192, 42237, 42240, 42508, 42512,
  42539, 42560, 42607, 42612, 42621, 42623, 42647, 42655, 42737, 42775, 42783, 42786, 42888,
  42891, 42894, 42896, 42899, 42912, 42922, 43000, 43047, 43072, 43123, 43136, 43204, 43216,
  43225, 43232, 43255, 43259, 43259, 43264, 43309, 43312, 43347, 43360, 43388, 43392, 43456,
  43471, 43481, 43520, 43574, 43584, 43597, 43600, 43609, 43616, 43638, 43642, 43643, 43648,
  43714, 43739, 43741, 43744, 43759, 43762, 43766, 43777, 43782, 43785, 43790, 43793, 43798,
  43808, 43814, 43816, 43822, 43968, 44010, 44012, 44013, 44016, 44025, 44032, 55203, 55216,
  55238, 55243, 55291, 63744, 64109, 64112, 64217, 64256, 64262, 64275, 64279, 64285, 64296,
  64298, 64310, 64312, 64316, 64318, 64318, 64320, 64321, 64323, 64324, 64326, 64433, 64467,
  64829, 64848, 64911, 64914, 64967, 65008, 65019, 65024, 65039, 65056, 65062, 65075, 65076,
  65101, 65103, 65136, 65140, 65142, 65276, 65296, 65305, 65313, 65338, 65343, 65343, 65345,
  65370, 65382, 65470, 65474, 65479, 65482, 65487, 65490, 65495, 65498, 65500]

/-! ## Scanner (scanner.go)

The scanner operates on the raw byte buffer (`List ℕ`, one entry per
byte).  Loops that the Go code bounds by pointer progress are given an
explicit fuel of `endPos - pos + 1` at their entry, which their progress
makes sufficient; positions, flags and token kinds mirror the source's
fields.  The injected error sink (`onError`) is modelled by a `pending`
list on the scanner state that the parser drains after each `Scan`,
preserving order, with the `pos = -1` convention of `Scanner.error`
resolved to the current position at emission time exactly as the parser's
`scanError` callback would.  Three quirks of the source are reproduced
deliberately: `peekEqual n ch` tests the `(n+1)`-th rune (so the
`\r`-escape lookahead is off by one rune); the `0x…` branch of `Scan`
returns without writing `s.token`; and `peekUnicodeEscape` scans for hex
digits while still positioned on the backslash, hence never succeeds. -/

abbrev TF_None : ℕ := 0
abbrev TF_PrecedingLineBreak : ℕ := 2
abbrev TF_Scientific : ℕ := 4
abbrev TF_Decimal : ℕ := 8
abbrev TF_Octal : ℕ := 16
abbrev TF_HexSpecifier : ℕ := 32
abbrev TF_BinarySpecifier : ℕ := 64
abbrev TF_OctalSpecifier : ℕ := 128
abbrev TF_ContainsSeparator : ℕ := 256
abbrev TF_UnicodeEscape : ℕ := 512

/-- `flags&TF != 0`. -/
def hasFlag (flags flag : ℕ) : Bool := flags &&& flag ≠ 0

/-- The diagnostic message identifiers of the source's message table,
keeping the source's constant names.  (The table itself is in the
repository's diagnostics file; the copy under `src/` appears in the
part_002 bundle.) -/
inductive MsgId where
  | M_Invalid_character
  | M_Digit_expected
  | M_0_expected
  | M_Identifier_expected
  | M_Hexadecimal_digit_expected
  | M_Expression_expected
  | M_Argument_expression_expected
  | M_Expression_or_comma_expected
  | M_Unexpected_end_of_text
  | M_Unterminated_string_literal
  | M_Multiple_consecutive_numeric_separators_are_not_permitted
  | M_Numeric_separators_are_not_allowed_here
  | M_An_identifier_or_keyword_cannot_immediately_follow_a_numeric_literal
  | M_Trailing_comma_not_allowed
deriving DecidableEq, Repr

/-- Diagnostic codes of the message table. -/
def msgCode : MsgId → ℕ
  | .M_Invalid_character => 1127
  | .M_Digit_expected => 1124
  | .M_0_expected => 1005
  | .M_Identifier_expected => 1003
  | .M_Hexadecimal_digit_expected => 1125
  | .M_Expression_expected => 1109
  | .M_Argument_expression_expected => 1135
  | .M_Expression_or_comma_expected => 1137
  | .M_Unexpected_end_of_text => 1126
  | .M_Unterminated_string_literal => 1002
  | .M_Multiple_consecutive_numeric_separators_are_not_permitted => 1301
  | .M_Numeric_separators_are_not_allowed_here => 1302
  | .M_An_identifier_or_keyword_cannot_immediately_follow_a_numeric_literal => 1302
  | .M_Trailing_comma_not_allowed => 1009

/-- Message texts, verbatim from the source (including its typos). -/
def msgText : MsgId → String
  | .M_Invalid_character => "invalid character"
  | .M_Digit_expected => "digit expected"
  | .M_0_expected => "\x7b0\x7d expected"
  | .M_Identifier_expected => "identifier expected"
  | .M_Hexadecimal_digit_expected => "hexadecimal digit expected"
  | .M_Expression_expected => "expression excepted"
  | .M_Argument_expression_expected => "argument expression expected"
  | .M_Expression_or_comma_expected => "expression or comma expected"
  | .M_Unexpected_end_of_text => "unexpected end of text"
  | .M_Unterminated_string_literal => "unterminated string literal"
  | .M_Multiple_consecutive_numeric_separators_are_not_permitted =>
      "multiple cconsecutive numeric separators are not permitted"
  | .M_Numeric_separators_are_not_allowed_here => "numeric separators are not allowed here"
  | .M_An_identifier_or_keyword_cannot_immediately_follow_a_numeric_literal =>
      "an identifier or keyword cannot immediately follow a numeric literal"
  | .M_Trailing_comma_not_allowed => "trailing comma not allowed"

/-- Every table entry has category `Error` (= 1 in the
`DiagnosticCategory` enumeration Warning/Error/Information). -/
def msgCategory : MsgId → ℕ := fun _ => 1

/-- A parser diagnostic (`Diagnostic` of part_002, without the back
pointer to the source file). -/
structure Diagnostic where
  start : ℕ
  length : ℕ
  code : ℕ
  category : ℕ
  messageText : String
deriving DecidableEq, Repr

/-- `formatStringFromArgs`: substitute the only placeholder the parser
uses, `{0}`. -/
def formatStringFromArgs (text : String) (args : List String) : String :=
  match args with
  | [] => text
  | a :: _ => text.replace "\x7b0\x7d" a

/-- `CreateFileDiagnostic` (utilities.go). -/
def CreateFileDiagnostic (start length : ℕ) (msg : MsgId) (args : List String) : Diagnostic :=
  { start := start, length := length, code := msgCode msg, category := msgCategory msg,
    messageText := formatStringFromArgs (msgText msg) args }

/-- The scanner state (`Scanner` of scanner.go). -/
structure Scanner where
  text : List ℕ
  pos : ℕ
  endPos : ℕ
  startPos : ℕ
  tokenPos : ℕ
  token : SyntaxKind
  tokenValue : String
  tokenFlags : ℕ
  pending : List (MsgId × ℕ × ℕ)
deriving Repr

/-- `utf8.DecodeRune`: code point and byte size of the first rune;
`(RuneError, 0)` on empty input, `(RuneError, 1)` on an invalid
encoding. -/
def utf8DecodeRune (bs : List ℕ) : ℕ × ℕ :=
  match bs with
  | [] => (0xFFFD, 0)
  | b0 :: rest =>
    if b0 < 0x80 then (b0, 1)
    else if b0 < 0xC2 then (0xFFFD, 1)
    else if b0 < 0xE0 then
      match rest with
      | b1 :: _ =>
          if 0x80 ≤ b1 ∧ b1 < 0xC0 then (((b0 - 0xC0) <<< 6) + (b1 - 0x80), 2)
          else (0xFFFD, 1)
      | _ => (0xFFFD, 1)
    else if b0 < 0xF0 then
      match rest with
      | b1 :: b2 :: _ =>
          let lo := if b0 = 0xE0 then 0xA0 else 0x80
          let hi := if b0 = 0xED then 0xA0 else 0xC0
          if lo ≤ b1 ∧ b1 < hi ∧ 0x80 ≤ b2 ∧ b2 < 0xC0 then
            (((b0 - 0xE0) <<< 12) + ((b1 - 0x80) <<< 6) + (b2 - 0x80), 3)
          else (0xFFFD, 1)
      | _ => (0xFFFD, 1)
    else if b0 < 0xF5 then
      match rest with
      | b1 :: b2 :: b3 :: _ =>
          let lo := if b0 = 0xF0 then 0x90 else 0x80
          let hi := if b0 = 0xF4 then 0x90 else 0xC0
          if lo ≤ b1 ∧ b1 < hi ∧ 0x80 ≤ b2 ∧ b2 < 0xC0 ∧ 0x80 ≤ b3 ∧ b3 < 0xC0 then
            (((b0 - 0xF0) <<< 18) + ((b1 - 0x80) <<< 12) + ((b2 - 0x80) <<< 6) + (b3 - 0x80), 4)
          else (0xFFFD, 1)
      | _ => (0xFFFD, 1)
    else (0xFFFD, 1)

/-- Decode the rune starting at byte offset `pos`. -/
def decodeAt (text : List ℕ) (pos : ℕ) : ℕ × ℕ :=
  utf8DecodeRune (text.drop pos)

/-- A code point as a `Char` (an invalid code point becomes U+FFFD, as in
Go's `string(rune)` conversion). -/
def runeToChar (r : ℕ) : Char :=
  if r < 0xD800 ∨ 0xDFFF < r ∧ r < 0x110000 then Char.ofNat r else '�'

/-- Go `string(bytes)`: UTF-8 decode, invalid sequences becoming
U+FFFD. -/
def bytesToStringAux : ℕ → List ℕ → List Char
  | 0, _ => []
  | _, [] => []
  | fuel + 1, bs =>
      let (r, size) := utf8DecodeRune bs
      if size = 0 then []
      else runeToChar r :: bytesToStringAux fuel (bs.drop size)

def bytesToString (bs : List ℕ) : String :=
  String.mk (bytesToStringAux (bs.length + 1) bs)

/-- UTF-8 byte length of one character. -/
def utf8CharSize (c : Char) : ℕ :=
  if c.toNat < 0x80 then 1
  else if c.toNat < 0x800 then 2
  else if c.toNat < 0x10000 then 3
  else 4

/-- Go `len` on a string: its UTF-8 byte length. -/
def stringUtf8Len (s : String) : ℕ :=
  (s.toList.map utf8CharSize).sum

/-- The byte slice `text[a:b]`. -/
def sliceBytes (text : List ℕ) (a b : ℕ) : List ℕ :=
  (text.drop a).take (b - a)

/-- `IsWhiteSpace` (scanner.go). -/
def IsWhiteSpace (ch : ℕ) : Bool :=
  ch = 32 ∨ ch = 9 ∨ ch = 11 ∨ ch = 12 ∨
    ch = Uni_NonBreakingSpace ∨ ch = Uni_Ogham ∨
    (Uni_EnQuad ≤ ch ∧ ch ≤ Uni_ZeroWidthSpace) ∨
    ch = Uni_NarrowNoBreakSpace ∨ ch = Uni_MathematicalSpace ∨
    ch = Uni_IdeographicSpace ∨ ch = Uni_ByteOrderMark

/-- `IsLineBreak` (scanner.go). -/
def IsLineBreak (ch : ℕ) : Bool :=
  ch = 13 ∨ ch = 10 ∨ ch = Uni_LineSeparator ∨ ch = Uni_ParagraphSeparator ∨ ch = Uni_NextLine

/-- `IsDigit` (scanner.go). -/
def IsDigit (ch : ℕ) : Bool := 48 ≤ ch ∧ ch ≤ 57

/-- `LookupInUnicodeMap` (scanner.go): binary search over a range
table. -/
def lookupUnicodeLoop : ℕ → ℕ → ℕ → ℕ → List ℕ → Bool
  | 0, _, _, _, _ => false
  | fuel + 1, lo, hi, code, arrMap =>
      if lo + 1 < hi then
        let mid := lo + (hi - lo) / 2
        let mid := mid - mid % 2
        if arrMap.getD mid 0 ≤ code ∧ code ≤ arrMap.getD (mid + 1) 0 then true
        else if code < arrMap.getD mid 0 then lookupUnicodeLoop fuel lo mid code arrMap
        else lookupUnicodeLoop fuel (mid + 2) hi code arrMap
      else false

def LookupInUnicodeMap (code : ℕ) (arrMap : List ℕ) : Bool :=
  if code < arrMap.getD 0 0 then false
  else lookupUnicodeLoop (arrMap.length + 2) 0 arrMap.length code arrMap

/-- `IsIdentifierStart` (scanner.go). -/
def IsIdentifierStart (ch : ℕ) : Bool :=
  (65 ≤ ch ∧ ch ≤ 90) ∨ (97 ≤ ch ∧ ch ≤ 122) ∨ ch = 36 ∨ ch = 95 ∨
    (127 < ch ∧ LookupInUnicodeMap ch unicodeES5IdentifierStart)

/-- `IsIdentifierPart` (scanner.go). -/
def IsIdentifierPart (ch : ℕ) : Bool :=
  (65 ≤ ch ∧ ch ≤ 90) ∨ (97 ≤ ch ∧ ch ≤ 122) ∨ (48 ≤ ch ∧ ch ≤ 57) ∨ ch = 36 ∨ ch = 95 ∨
    (127 < ch ∧ LookupInUnicodeMap ch unicodeES5IdentifierPart)

/-- `tokens` table and `SyntaxKind.ToString` (part_002); kinds with no
entry render as the empty string. -/
def skToString (tok : SyntaxKind) : String :=
  if tok = SK_OpenParen then "("
  else if tok = SK_CloseParen then ")"
  else if tok = SK_OpenBracket then "["
  else if tok = SK_CloseBracket then "]"
  else if tok = SK_Dot then "."
  else if tok = SK_Comma then ","
  else if tok = SK_TrueKeyword then "true"
  else if tok = SK_FalseKeyword then "false"
  else if tok = SK_NullKeyword then "null"
  else if tok = SK_ThisKeyword then "this"
  else if tok = SK_CtxKeyword then "ctx"
  else if tok = SK_TypeofKeyword then "typeof"
  else ""

/-- `KeywordFromString` (part_002). -/
def KeywordFromString (text : String) : SyntaxKind :=
  if text = "true" then SK_TrueKeyword
  else if text = "false" then SK_FalseKeyword
  else if text = "null" then SK_NullKeyword
  else if text = "this" then SK_ThisKeyword
  else if text = "ctx" then SK_CtxKeyword
  else if text = "typeof" then SK_TypeofKeyword
  else SK_Unknown

/-- `Scanner.error`: emit with `pos = -1`, which the parser's `scanError`
resolves to the scanner's current position at emission time. -/
def sError (s : Scanner) (msg : MsgId) : Scanner :=
  { s with pending := s.pending ++ [(msg, s.pos, 0)] }

/-- `Scanner.errorAtPos`. -/
def sErrorAtPos (s : Scanner) (msg : MsgId) (pos len : ℕ) : Scanner :=
  { s with pending := s.pending ++ [(msg, pos, len)] }

/-- The loop shared by `peekEqual` and `peekCheck`: decode runes from
`start`, decrementing `n`, and test the rune reached when `n` drops below
zero, returning the position just after it. -/
def peekLoop (f : ℕ → Bool) : ℕ → ℕ → Scanner → Option ℕ
  | n, start, s =>
      if start < s.endPos then
        let (ch, size) := decodeAt s.text start
        let start2 := start + size
        match n with
        | 0 => if f ch then some start2 else none
        | n + 1 => peekLoop f n start2 s
      else none

/-- `Scanner.peekCheck` (`-1` becomes `none`). -/
def peekCheck (s : Scanner) (n : ℕ) (f : ℕ → Bool) : Option ℕ :=
  if s.pos ≥ s.endPos then none else peekLoop f n s.pos s

/-- `Scanner.peekEqual`. -/
def peekEqual (s : Scanner) (n : ℕ) (ch : ℕ) : Option ℕ :=
  if s.pos ≥ s.endPos then none else peekLoop (fun c => c = ch) n s.pos s

/-- `Scanner.peek`. -/
def sPeek (s : Scanner) (pos : ℕ) : ℕ × ℕ :=
  if pos < s.text.length then decodeAt s.text pos else (0, 0)

/-- The loop of `scanNumberFragment`; state: start of the pending byte
segment, `allowSeparator`, `isPreviousTokenSeparator`, `underlineStart`,
accumulated bytes. -/
def scanNumberFragmentLoop :
    ℕ → Scanner → ℕ → Bool → Bool → ℕ → List ℕ → Scanner × ℕ × Bool × ℕ × List ℕ
  | 0, s, start, _, isPrev, underlineStart, acc => (s, start, isPrev, underlineStart, acc)
  | fuel + 1, s, start, allowSep, isPrev, underlineStart, acc =>
      if s.pos < s.endPos then
        let (ch, size) := decodeAt s.text s.pos
        if ch = 95 then
          let s := { s with tokenFlags := s.tokenFlags ||| TF_ContainsSeparator }
          let (s, allowSep2, isPrev2, acc2) :=
            if allowSep then (s, false, true, acc ++ sliceBytes s.text start s.pos)
            else if isPrev then
              (sErrorAtPos s .M_Multiple_consecutive_numeric_separators_are_not_permitted
                s.pos 1, allowSep, isPrev, acc)
            else
              (sErrorAtPos s .M_Numeric_separators_are_not_allowed_here s.pos 1,
                allowSep, isPrev, acc)
          let start2 := s.pos
          let underlineStart2 := s.pos
          scanNumberFragmentLoop fuel { s with pos := s.pos + size } start2 allowSep2 isPrev2
            underlineStart2 acc2
        else if IsDigit ch then
          scanNumberFragmentLoop fuel { s with pos := s.pos + size } start true false
            underlineStart acc
        else (s, start, isPrev, underlineStart, acc)
      else (s, start, isPrev, underlineStart, acc)

/-- `Scanner.scanNumberFragment`. -/
def scanNumberFragment (s : Scanner) : String × Scanner :=
  let (s2, start, isPrev, underlineStart, acc) :=
    scanNumberFragmentLoop (s.endPos - s.pos + 1) s s.pos false false 0 []
  let s3 :=
    if isPrev then sErrorAtPos s2 .M_Numeric_separators_are_not_allowed_here underlineStart 1
    else s2
  (bytesToString (acc ++ sliceBytes s3.text start s3.pos), s3)

/-- The loop of `scanHexDigits`. -/
def scanHexDigitsLoop :
    ℕ → Scanner → ℕ → Bool → Bool → List ℕ → Bool → Bool → ℕ → Scanner × List ℕ × Bool × ℕ
  | 0, s, _, _, _, acc, _, isPrev, underlineStart => (s, acc, isPrev, underlineStart)
  | fuel + 1, s, count, scanAsMany, canHaveSeps, acc, allowSep, isPrev, underlineStart =>
      if (acc.length < count ∨ scanAsMany) ∧ s.pos < s.endPos then
        let (ch, size) := decodeAt s.text s.pos
        if canHaveSeps ∧ ch = 95 then
          let s := { s with tokenFlags := s.tokenFlags ||| TF_ContainsSeparator }
          let (s, allowSep2, isPrev2) :=
            if allowSep then (s, false, true)
            else if isPrev then
              (sErrorAtPos s .M_Multiple_consecutive_numeric_separators_are_not_permitted
                s.pos 1, allowSep, isPrev)
            else
              (sErrorAtPos s .M_Numeric_separators_are_not_allowed_here s.pos 1,
                allowSep, isPrev)
          scanHexDigitsLoop fuel { s with pos := s.pos + size } count scanAsMany canHaveSeps
            acc allowSep2 isPrev2 s.pos
        else
          let ch2 := if 65 ≤ ch ∧ ch ≤ 70 then ch + 32 else ch
          if (48 ≤ ch2 ∧ ch2 ≤ 57) ∨ (97 ≤ ch2 ∧ ch2 ≤ 122) then
            scanHexDigitsLoop fuel { s with pos := s.pos + size } count scanAsMany canHaveSeps
              (acc ++ [ch2]) canHaveSeps false underlineStart
          else (s, acc, isPrev, underlineStart)
      else (s, acc, isPrev, underlineStart)

/-- `Scanner.scanHexDigits`; sets `allowSeparator := canHaveSeparators`
after each digit exactly as the source does. -/
def scanHexDigits (s : Scanner) (count : ℕ) (scanAsMany canHaveSeps : Bool) :
    String × Scanner :=
  let (s2, acc, isPrev, underlineStart) :=
    scanHexDigitsLoop (s.endPos - s.pos + 1) s count scanAsMany canHaveSeps [] false false 0
  let s3 :=
    if isPrev then sErrorAtPos s2 .M_Numeric_separators_are_not_allowed_here underlineStart 1
    else s2
  (String.mk (acc.map runeToChar), s3)

/-- Value of one lowercase hexadecimal digit character. -/
def hexDigitVal (c : Char) : Option ℕ :=
  if 48 ≤ c.toNat ∧ c.toNat ≤ 57 then some (c.toNat - 48)
  else if 97 ≤ c.toNat ∧ c.toNat ≤ 102 then some (c.toNat - 87)
  else none

def parseHexNat : List Char → ℕ → Option ℕ
  | [], acc => some acc
  | c :: cs, acc =>
      match hexDigitVal c with
      | some d => parseHexNat cs (acc * 16 + d)
      | none => none

/-- `Scanner.scanExactNumberOfHexDigits`: `none` models the `-1` of an
empty scan.  (`scanHexDigits` also admits the letters `g`–`z`, on which
the source's `strconv.ParseInt` would panic; that path — unreachable from
any claim — is folded into `none` here.) -/
def scanExactNumberOfHexDigits (s : Scanner) (count : ℕ) (canHaveSeps : Bool) :
    Option ℕ × Scanner :=
  let (valueString, s2) := scanHexDigits s count false canHaveSeps
  if valueString.length > 0 then (parseHexNat valueString.toList 0, s2)
  else (none, s2)

/-- `Scanner.scanMinimumNumberOfHexDigits`. -/
def scanMinimumNumberOfHexDigits (s : Scanner) (count : ℕ) (canHaveSeps : Bool) :
    String × Scanner :=
  scanHexDigits s count true canHaveSeps

/-- `Scanner.scanHexadecimalEscape`: renders the escaped value back as
its *decimal* digit string (`strconv.Itoa`), as the source does. -/
def scanHexadecimalEscape (s : Scanner) (numDigits : ℕ) : String × Scanner :=
  match scanExactNumberOfHexDigits s numDigits false with
  | (some v, s2) => (natToDigits v, s2)
  | (none, s2) => ("", sError s2 .M_Hexadecimal_digit_expected)

/-- `Scanner.scanEscapeSequence`.  Note `s.pos++` advances one *byte*
before decoding, and the `\r` case looks one rune too far ahead
(`peekEqual 1`), both as in the source. -/
def scanEscapeSequence (s : Scanner) : String × Scanner :=
  let s := { s with pos := s.pos + 1 }
  if s.pos ≥ s.endPos then ("", sError s .M_Unexpected_end_of_text)
  else
    let (ch, size) := decodeAt s.text s.pos
    let s := { s with pos := s.pos + size }
    if ch = 48 then ("\x00", s)
    else if ch = 98 then ("\x08", s)
    else if ch = 116 then ("\t", s)
    else if ch = 110 then ("\n", s)
    else if ch = 118 then ("\x0B", s)
    else if ch = 102 then ("\x0C", s)
    else if ch = 114 then ("\x0D", s)
    else if ch = 39 then (String.singleton (runeToChar 39), s)
    else if ch = 34 then ("\"", s)
    else if ch = 117 then
      let s := { s with tokenFlags := s.tokenFlags ||| TF_UnicodeEscape }
      scanHexadecimalEscape s 4
    else if ch = 120 then scanHexadecimalEscape s 2
    else if ch = 13 then
      let s :=
        match peekEqual s 1 10 with
        | some tar => { s with pos := tar }
        | none => s
      ("", s)
    else if ch = 10 ∨ ch = Uni_LineSeparator ∨ ch = Uni_ParagraphSeparator then ("", s)
    else (String.singleton (runeToChar ch), s)

/-- The loop of `scanString`; accumulates decoded chunks and escape
expansions. -/
def scanStringLoop : ℕ → Scanner → ℕ → ℕ → String → String × Scanner
  | 0, s, _, _, contents => (contents, s)
  | fuel + 1, s, quote, start, contents =>
      if s.pos ≥ s.endPos then
        (contents ++ bytesToString (sliceBytes s.text start s.pos),
         sError s .M_Unexpected_end_of_text)
      else
        let (ch, size) := decodeAt s.text s.pos
        if ch = quote then
          (contents ++ bytesToString (sliceBytes s.text start s.pos),
           { s with pos := s.pos + size })
        else if ch = 92 then
          let contents2 := contents ++ bytesToString (sliceBytes s.text start s.pos)
          let (esc, s2) := scanEscapeSequence s
          scanStringLoop fuel s2 quote s2.pos (contents2 ++ esc)
        else if IsLineBreak ch then
          (contents ++ bytesToString (sliceBytes s.text start s.pos),
           sError s .M_Unterminated_string_literal)
        else scanStringLoop fuel { s with pos := s.pos + size } quote start contents

/-- `Scanner.scanString`. -/
def scanString (s : Scanner) : String × Scanner :=
  let (quote, size) := decodeAt s.text s.pos
  let s := { s with pos := s.pos + size }
  scanStringLoop (s.endPos - s.pos + 2) s quote s.pos ""

/-- `Scanner.peekUnicodeEscape`.  The source scans for the four hex
digits while still positioned on the backslash, so the scan always
fails; the behaviour is reproduced as written. -/
def peekUnicodeEscape (s : Scanner) : Option ℕ × Scanner :=
  if s.pos + 5 < s.endPos then
    match peekEqual s 1 117 with
    | some _ =>
        let start := s.pos
        let (value, s2) := scanExactNumberOfHexDigits s 4 true
        (value, { s2 with pos := start })
    | none => (none, s)
  else (none, s)

/-- The loop of `scanIdentifierParts`. -/
def scanIdentifierPartsLoop : ℕ → Scanner → ℕ → String → String × Scanner
  | 0, s, start, result => (result ++ bytesToString (sliceBytes s.text start s.pos), s)
  | fuel + 1, s, start, result =>
      if s.pos < s.endPos then
        let (ch, size) := decodeAt s.text s.pos
        if IsIdentifierPart ch then
          scanIdentifierPartsLoop fuel { s with pos := s.pos + size } start result
        else if ch = 92 then
          match peekUnicodeEscape s with
          | (some esc, s2) =>
              if IsIdentifierPart esc then
                let result2 := result ++ bytesToString (sliceBytes s2.text start s2.startPos) ++
                  String.singleton (runeToChar esc)
                scanIdentifierPartsLoop fuel { s2 with pos := s2.pos + 6 } (s2.pos + 6) result2
              else (result ++ bytesToString (sliceBytes s2.text start s2.pos), s2)
          | (none, s2) => (result ++ bytesToString (sliceBytes s2.text start s2.pos), s2)
        else (result ++ bytesToString (sliceBytes s.text start s.pos), s)
      else (result ++ bytesToString (sliceBytes s.text start s.pos), s)

/-- `Scanner.scanIdentifierParts`. -/
def scanIdentifierParts (s : Scanner) : String × Scanner :=
  scanIdentifierPartsLoop (s.endPos - s.pos + 1) s s.pos ""

/-- `Scanner.checkForIdentifierStartAfterNumericLiteral`. -/
def checkForIdentifierStartAfterNumericLiteral (s : Scanner) : Scanner :=
  let (ch, _) := sPeek s s.pos
  if ¬IsIdentifierStart ch then s
  else
    let identifierStart := s.pos
    let (parts, s2) := scanIdentifierParts s
    let s3 := sErrorAtPos s2
      .M_An_identifier_or_keyword_cannot_immediately_follow_a_numeric_literal
      identifierStart (stringUtf8Len parts)
    { s3 with pos := identifierStart }

/-- `Scanner.scanNumber`. -/
def scanNumber (s : Scanner) : String × Scanner :=
  let start := s.pos
  let (mainFragment, s) := scanNumberFragment s
  let (decimalFragment, s) :=
    match peekEqual s 0 46 with
    | some tar =>
        let s := { s with tokenFlags := s.tokenFlags ||| TF_Decimal, pos := tar }
        scanNumberFragment s
    | none => ("", s)
  let endPos1 := s.pos
  let (scientificFragment, endPos2, s) :=
    match peekCheck s 0 (fun ch => ch = 101 ∨ ch = 69) with
    | some tar =>
        let s := { s with pos := tar, tokenFlags := s.tokenFlags ||| TF_Scientific }
        let s :=
          match peekCheck s 0 (fun ch => ch = 43 ∨ ch = 45) with
          | some tar2 => { s with pos := tar2 }
          | none => s
        let preNumericPart := s.pos
        let (finalFragment, s) := scanNumberFragment s
        if finalFragment.length = 0 then ("", endPos1, sError s .M_Digit_expected)
        else
          (bytesToString (sliceBytes s.text endPos1 preNumericPart) ++ finalFragment,
           s.pos, s)
    | none => ("", endPos1, s)
  let result :=
    if hasFlag s.tokenFlags TF_ContainsSeparator then
      mainFragment ++
        (if decimalFragment.length > 0 then "." ++ decimalFragment else "") ++
        scientificFragment
    else bytesToString (sliceBytes s.text start endPos2)
  let s := { s with tokenValue := result }
  let s := checkForIdentifierStartAfterNumericLiteral s
  (result, s)

/-- `Scanner.getIdentifierToken`. -/
def getIdentifierToken (s : Scanner) : Scanner :=
  let tok := KeywordFromString s.tokenValue
  if tok ≠ SK_Unknown then { s with token := tok }
  else { s with token := SK_Identifier }

/-- The identifier-consumption loop of `Scan`. -/
def scanIdentLoop : ℕ → Scanner → Scanner
  | 0, s => s
  | fuel + 1, s =>
      match peekCheck s 0 IsIdentifierPart with
      | some tar => scanIdentLoop fuel { s with pos := tar }
      | none => s

/-- `Scanner.Scan`: the token dispatch loop. -/
def scanLoop : ℕ → Scanner → Scanner
  | 0, s => { s with token := SK_Unknown }
  | fuel + 1, s =>
      let s := { s with tokenPos := s.pos }
      if s.pos ≥ s.endPos then { s with token := SK_EndOfFile }
      else
        let (ch, size) := decodeAt s.text s.pos
        if ch = 10 ∨ ch = 13 then
          scanLoop fuel
            { s with tokenFlags := s.tokenFlags ||| TF_PrecedingLineBreak,
                     pos := s.pos + size }
        else if ch = 9 ∨ ch = 11 ∨ ch = 12 ∨ ch = 32 then
          scanLoop fuel { s with pos := s.pos + size }
        else if ch = 33 then
          match peekEqual s 1 61 with
          | some tar =>
              (match peekEqual s 2 61 with
               | some tar2 => { s with pos := tar2, token := SK_ExclamationEqualsEquals }
               | none => { s with pos := tar, token := SK_ExclamationEquals })
          | none =>
              match peekEqual s 1 33 with
              | some tar => { s with pos := tar, token := SK_ExclamationExclamation }
              | none =>
                  match peekEqual s 1 46 with
                  | some tar => { s with pos := tar, token := SK_ExclamationDot }
                  | none => { s with pos := s.pos + size, token := SK_Exclamation }
        else if ch = 34 ∨ ch = 39 then
          let (v, s2) := scanString s
          { s2 with tokenValue := v, token := SK_StringLiteral }
        else if ch = 38 then
          match peekEqual s 1 38 with
          | some tar => { s with pos := tar, token := SK_AmpersandAmpersand }
          | none => { s with pos := s.pos + size, token := SK_Ampersand }
        else if ch = 40 then { s with pos := s.pos + size, token := SK_OpenParen }
        else if ch = 41 then { s with pos := s.pos + size, token := SK_CloseParen }
        else if ch = 37 then { s with pos := s.pos + 1, token := SK_Percent }
        else if ch = 42 then { s with pos := s.pos + 1, token := SK_Asterisk }
        else if ch = 43 then { s with pos := s.pos + size, token := SK_Plus }
        else if ch = 44 then { s with pos := s.pos + size, token := SK_Comma }
        else if ch = 45 then { s with pos := s.pos + size, token := SK_Minus }
        else if ch = 46 then
          match peekCheck s 1 IsDigit with
          | some tar =>
              if tar > 0 then
                let (v, s2) := scanNumber s
                { s2 with tokenValue := v, token := SK_NumberLiteral }
              else
                match peekEqual s 1 46, peekEqual s 2 46 with
                | some _, some tar2 => { s with pos := tar2, token := SK_DotDotDot }
                | _, _ => { s with pos := s.pos + size, token := SK_Dot }
          | none =>
              match peekEqual s 1 46, peekEqual s 2 46 with
              | some _, some tar2 => { s with pos := tar2, token := SK_DotDotDot }
              | _, _ => { s with pos := s.pos + size, token := SK_Dot }
        else if ch = 47 then { s with pos := s.pos + size, token := SK_Slash }
        else if ch = 48 then
          if s.pos + 2 < s.endPos then
            match peekCheck s 1 (fun c => c = 120 ∨ c = 88) with
            | some tar =>
                let s := { s with pos := tar }
                let (v, s2) := scanMinimumNumberOfHexDigits s 1 false
                let (v, s2) :=
                  if v.length = 0 then ("0", sError s2 .M_Hexadecimal_digit_expected)
                  else (v, s2)
                -- the `0x…` branch returns without writing `s.token`
                { s2 with tokenValue := "0x" ++ v,
                          tokenFlags := s2.tokenFlags ||| TF_HexSpecifier }
            | none =>
                let (v, s2) := scanNumber s
                { s2 with tokenValue := v, token := SK_NumberLiteral }
          else
            let (v, s2) := scanNumber s
            { s2 with tokenValue := v, token := SK_NumberLiteral }
        else if 49 ≤ ch ∧ ch ≤ 57 then
          let (v, s2) := scanNumber s
          { s2 with tokenValue := v, token := SK_NumberLiteral }
        else if ch = 58 then { s with pos := s.pos + size, token := SK_Colon }
        else if ch = 60 then
          match peekEqual s 1 61 with
          | some tar => { s with pos := tar, token := SK_LessThanEquals }
          | none => { s with pos := s.pos + size, token := SK_LessThan }
        else if ch = 61 then
          match peekEqual s 1 61 with
          | some tar =>
              (match peekEqual s 2 61 with
               | some tar2 => { s with pos := tar2, token := SK_EqualsEqualsEquals }
               | none => { s with pos := tar, token := SK_EqualsEquals })
          | none => { s with pos := s.pos + size, token := SK_Equals }
        else if ch = 62 then
          match peekEqual s 1 61 with
          | some tar => { s with pos := tar, token := SK_GreaterThanEquals }
          | none => { s with pos := s.pos + size, token := SK_GreaterThan }
        else if ch = 63 then
          match peekEqual s 1 63 with
          | some tar => { s with pos := tar, token := SK_QuestionQuestion }
          | none => { s with pos := s.pos + size, token := SK_Question }
        else if ch = 91 then { s with pos := s.pos + size, token := SK_OpenBracket }
        else if ch = 93 then { s with pos := s.pos + size, token := SK_CloseBracket }
        else if ch = 94 then { s with pos := s.pos + size, token := SK_Caret }
        else if ch = 124 then
          match peekEqual s 1 124 with
          | some tar => { s with pos := tar, token := SK_BarBar }
          | none => { s with pos := s.pos + size, token := SK_Bar }
        else if ch = 126 then { s with pos := s.pos + size, token := SK_Tilde }
        else if IsIdentifierStart ch then
          let s := scanIdentLoop (s.endPos - s.pos + 1) { s with pos := s.pos + size }
          let s := { s with tokenValue := bytesToString (sliceBytes s.text s.tokenPos s.pos) }
          let s :=
            match peekEqual s 0 92 with
            | some tar =>
                if tar > 0 then
                  let (parts, s2) := scanIdentifierParts s
                  { s2 with tokenValue := s2.tokenValue ++ parts }
                else s
            | none => s
          getIdentifierToken s
        else if IsWhiteSpace ch then scanLoop fuel { s with pos := s.pos + size }
        else if IsLineBreak ch then
          scanLoop fuel
            { s with tokenFlags := s.tokenFlags ||| TF_PrecedingLineBreak,
                     pos := s.pos + size }
        else
          let s := sError s .M_Invalid_character
          { s with pos := s.pos + size, token := SK_Unknown }

/-- `Scanner.Scan`. -/
def Scan (s : Scanner) : Scanner :=
  scanLoop (s.endPos - s.pos + 1) { s with startPos := s.pos, tokenFlags := TF_None }

/-- `CreateScanner` / `SetText` / `SetTextPos`. -/
def CreateScanner (text : List ℕ) : Scanner :=
  { text := text, pos := 0, endPos := text.length, startPos := 0, tokenPos := 0,
    token := SK_Unknown, tokenValue := "", tokenFlags := TF_None, pending := [] }

/-- `Scanner.GetTokenText`. -/
def GetTokenText (s : Scanner) : String :=
  bytesToString (sliceBytes s.text s.tokenPos s.pos)

/-- `Scanner.HasPrecedingLineBreak`. -/
def HasPrecedingLineBreak (s : Scanner) : Bool :=
  hasFlag s.tokenFlags TF_PrecedingLineBreak

/-! ## Parser (parser.go)

The parser is a state monad over the scanner plus the accumulated
diagnostics.  The `Option` layer models only the embedding's fuel for the
mutually recursive productions; the Go functions have no corresponding
failure mode (their termination rests on token progress).  AST nodes are
produced without source ranges, and the node/identifier counters and the
unused `parsingCtx` bookkeeping are omitted — nothing observable reads
them.  `tryParse`/`TryScan` are defined in the source but never called and
are omitted; `lookAhead` (used by `parseRightSideOfDot`) is modelled by
running the callback and restoring the scanner state and the diagnostics
length, exactly as `parserSpeculationHelper` does for a lookahead. -/

structure PState where
  scanner : Scanner
  parseDiagnostics : List Diagnostic

abbrev PM (α : Type) := StateT PState Option α

def getSc : PM Scanner := do return (← get).scanner

def setSc (s : Scanner) : PM Unit :=
  modify fun st => { st with scanner := s }

def pToken : PM SyntaxKind := do return (← get).scanner.token

/-- `Parser.errorAtPosition`: append unless it would repeat the last
diagnostic's start position. -/
def errorAtPosition (start length : ℕ) (msg : MsgId) (args : List String) : PM Unit :=
  modify fun st =>
    if st.parseDiagnostics.length = 0 ∨
        (st.parseDiagnostics.getLast?.map (·.start)) ≠ some start then
      { st with parseDiagnostics :=
          st.parseDiagnostics ++ [CreateFileDiagnostic start length msg args] }
    else st

/-- `Parser.errorAtCurrentToken`. -/
def errorAtCurrentToken (msg : MsgId) (args : List String) : PM Unit := do
  let sc ← getSc
  errorAtPosition sc.tokenPos (sc.pos - sc.tokenPos) msg args

/-- Feed the scanner's sink calls through `scanError` →
`errorAtPosition`, in emission order. -/
def integrateScanErrors : List (MsgId × ℕ × ℕ) → PM Unit
  | [] => pure ()
  | (msg, pos, len) :: rest => do
      errorAtPosition pos len msg []
      integrateScanErrors rest

/-- `Parser.nextToken`. -/
def nextTokenP : PM SyntaxKind := do
  let sc ← getSc
  let sc2 := Scan sc
  setSc { sc2 with pending := [] }
  integrateScanErrors sc2.pending
  pToken

/-- `nextTokenIsIdentifierOrKeywordOnSameLine`. -/
def nextTokenIsIdentifierOrKeywordOnSameLine : PM Bool := do
  _ ← nextTokenP
  let sc ← getSc
  return TokenIsIdentifierOrKeyword sc.token ∧ ¬HasPrecedingLineBreak sc

/-- `lookAhead`: run the callback, then restore the scanner snapshot and
truncate the diagnostics back to their saved length. -/
def lookAheadBool (body : PM Bool) : PM Bool := do
  let st ← get
  let saveLen := st.parseDiagnostics.length
  let r ← body
  let st2 ← get
  set (PState.mk st.scanner (st2.parseDiagnostics.take saveLen))
  return r

/-- `Parser.parseExpected`. -/
def parseExpected (kind : SyntaxKind) (msg : Option MsgId) (shouldAdvance : Bool) :
    PM Bool := do
  if (← pToken) = kind then do
    if shouldAdvance then do
      _ ← nextTokenP
    return true
  else do
    match msg with
    | some m => errorAtCurrentToken m []
    | none => errorAtCurrentToken .M_0_expected [skToString kind]
    return false

/-- `Parser.want`. -/
def want (t : SyntaxKind) : PM Bool := parseExpected t none true

/-- `Parser.got`. -/
def got (t : SyntaxKind) : PM Bool := do
  if (← pToken) = t then do
    _ ← nextTokenP
    return true
  else return false

/-- `Parser.parseToken` (the node is just its kind here). -/
def parseTokenP : PM SyntaxKind := do
  let t ← pToken
  _ ← nextTokenP
  return t

/-- `Parser.gotToken`. -/
def gotTokenP (t : SyntaxKind) : PM (Option SyntaxKind) := do
  if (← pToken) = t then return some (← parseTokenP)
  else return none

/-- `Parser.wantToken`; a missing token comes back as the zero node
(`SK_Unknown`).  The Go code forwards its `args` slice as a SINGLE
variadic argument, so the `\x7b0\x7d` placeholder is filled with the
`%v` rendering of the whole slice (`[` + space-joined + `]`). -/
def wantToken (t : SyntaxKind) (reportAtCurrentPosition : Bool) (msg : MsgId)
    (args : List String) : PM SyntaxKind := do
  match ← gotTokenP t with
  | some tok => return tok
  | none => do
      let args2 := ["[" ++ String.intercalate " " args ++ "]"]
      if reportAtCurrentPosition then do
        let sc ← getSc
        errorAtPosition sc.startPos 0 msg args2
      else errorAtCurrentToken msg args2
      return SK_Unknown

/-- `Parser.createIdentifier`; the error path yields the placeholder
identifier (zero value, empty name) without consuming a token. -/
def createIdentifier (isIdent : Bool) (msg : Option MsgId) : PM Expr := do
  if isIdent then do
    let sc ← getSc
    let v := sc.tokenValue
    _ ← nextTokenP
    return .identifier v
  else do
    match msg with
    | some m => errorAtCurrentToken m []
    | none => errorAtCurrentToken .M_Identifier_expected []
    return .identifier ""

/-- `Parser.parseIdentifier`. -/
def parseIdentifierP (msg : Option MsgId) : PM Expr := do
  createIdentifier (SKIsIdentifier (← pToken)) msg

/-- `Parser.parseRightSideOfDot`. -/
def parseRightSideOfDot : PM Expr := do
  let sc ← getSc
  if HasPrecedingLineBreak sc ∧ TokenIsIdentifierOrKeyword sc.token then do
    let matchesPattern ← lookAheadBool nextTokenIsIdentifierOrKeywordOnSameLine
    if matchesPattern then do
      let sc2 ← getSc
      errorAtPosition sc2.startPos 0 .M_Identifier_expected []
      return .identifier ""
    else parseIdentifierP none
  else parseIdentifierP none

/-- `Parser.parseLiteralExpressionRest` at the current token. -/
def parseLiteralExpressionP : PM Expr := do
  let sc ← getSc
  let tok := sc.token
  let v := sc.tokenValue
  _ ← nextTokenP
  return .literal tok v

/-- `Parser.getBinaryOperatorPrecedence`, as a function of the token. -/
def getPrecedenceOf (tok : SyntaxKind) : ℤ :=
  if tok = SK_BarBar ∨ tok = SK_QuestionQuestion then 1
  else if tok = SK_AmpersandAmpersand then 2
  else if tok = SK_Bar then 3
  else if tok = SK_Caret then 4
  else if tok = SK_Ampersand then 5
  else if tok = SK_EqualsEquals ∨ tok = SK_EqualsEqualsEquals ∨
    tok = SK_ExclamationEquals ∨ tok = SK_ExclamationEqualsEquals then 6
  else if tok = SK_LessThan ∨ tok = SK_GreaterThan ∨ tok = SK_LessThanEquals ∨
    tok = SK_GreaterThanEquals then 7
  else if tok = SK_Plus ∨ tok = SK_Minus then 9
  else if tok = SK_Asterisk ∨ tok = SK_Slash ∨ tok = SK_Percent then 10
  else -1

/-- `Parser.isStartOfLeftHandSideExpression`. -/
def isStartOfLeftHandSideExpression : PM Bool := do
  let tok ← pToken
  if tok = SK_TrueKeyword ∨ tok = SK_FalseKeyword ∨ tok = SK_NumberLiteral ∨
      tok = SK_StringLiteral ∨ tok = SK_OpenParen ∨ tok = SK_OpenBracket ∨
      tok = SK_Slash ∨ tok = SK_Identifier then
    return true
  else return SKIsIdentifier tok

/-- `Parser.isStartOfExpression`. -/
def isStartOfExpression : PM Bool := do
  if ← isStartOfLeftHandSideExpression then return true
  else do
    let tok ← pToken
    if tok = SK_Plus ∨ tok = SK_Minus ∨ tok = SK_Tilde ∨ tok = SK_Exclamation ∨
        tok = SK_LessThan then
      return true
    else if getPrecedenceOf tok > 0 then return true
    else return SKIsIdentifier tok

/-- The two parsing contexts (`pcArgumentExpressions = 0`,
`pcArrayLiteralMembers = 1`). -/
abbrev parsingContextM := ℕ

/-- `Parser.isListTerminator`. -/
def isListTerminator (kind : parsingContextM) : PM Bool := do
  let tok ← pToken
  if tok = SK_EndOfFile then return true
  else if kind = 0 then return tok = SK_CloseParen ∨ tok = SK_DotDotDot
  else if kind = 1 then return tok = SK_CloseBracket
  else return false

/-- `Parser.isListElement`. -/
def isListElement (kind : parsingContextM) : PM Bool := do
  if kind = 0 then isStartOfExpression
  else do
    let tok ← pToken
    if tok = SK_Comma then return true else isStartOfExpression

/-- `parsingContextErrors`. -/
def parsingContextErrors (kind : parsingContextM) : MsgId :=
  if kind = 0 then .M_Argument_expression_expected else .M_Expression_or_comma_expected

/-- `Parser.reportErrorAndMoveToNextToken` (always returns false). -/
def reportErrorAndMoveToNextToken (kind : parsingContextM) : PM Bool := do
  errorAtCurrentToken (parsingContextErrors kind) []
  _ ← nextTokenP
  return false

mutual
/-- `Parser.parseExpression`: assignment-or-higher followed by the
top-level comma chain. -/
def parseExpressionF : ℕ → PM Expr
  | 0 => fun _ => none
  | fuel + 1 => do
      let expr ← parseAssignmentExpressionOrHigherF fuel
      parseExpressionLoopF fuel expr

def parseExpressionLoopF : ℕ → Expr → PM Expr
  | 0, _ => fun _ => none
  | fuel + 1, expr => do
      match ← gotTokenP SK_Comma with
      | none => return expr
      | some _ => do
          let right ← parseAssignmentExpressionOrHigherF fuel
          parseExpressionLoopF fuel (.binary expr SK_Comma right)

/-- `Parser.parseAssignmentExpressionOrHigher`. -/
def parseAssignmentExpressionOrHigherF : ℕ → PM Expr
  | 0 => fun _ => none
  | fuel + 1 => do
      let expr ← parseBinaryExpressionF fuel 0
      if IsAssignmentOperator (← pToken) then do
        let op ← parseTokenP
        let right ← parseAssignmentExpressionOrHigherF fuel
        return .binary expr op right
      else parseConditionalExpressionF fuel expr

/-- `Parser.parseConditionalExpression`. -/
def parseConditionalExpressionF : ℕ → Expr → PM Expr
  | 0, _ => fun _ => none
  | fuel + 1, leftOperand => do
      match ← gotTokenP SK_Question with
      | none => return leftOperand
      | some _ => do
          let whenTrue ← parseAssignmentExpressionOrHigherF fuel
          _ ← wantToken SK_Colon false .M_0_expected [skToString SK_Colon]
          let whenFalse ← parseAssignmentExpressionOrHigherF fuel
          return .conditional leftOperand whenTrue whenFalse

/-- `Parser.parseBinaryExpression`. -/
def parseBinaryExpressionF : ℕ → ℤ → PM Expr
  | 0, _ => fun _ => none
  | fuel + 1, precedence => do
      let leftOperand ← parseUnaryExpressionF fuel
      parseBinaryExpressionRestF fuel precedence leftOperand

/-- `Parser.parseBinaryExpressionRest`. -/
def parseBinaryExpressionRestF : ℕ → ℤ → Expr → PM Expr
  | 0, _, _ => fun _ => none
  | fuel + 1, precedence, leftOperand => do
      let newPrecedence := getPrecedenceOf (← pToken)
      if newPrecedence > precedence then do
        let op ← parseTokenP
        let right ← parseBinaryExpressionF fuel newPrecedence
        parseBinaryExpressionRestF fuel precedence (.binary leftOperand op right)
      else return leftOperand

/-- `Parser.parseUnaryExpression`. -/
def parseUnaryExpressionF : ℕ → PM Expr
  | 0 => fun _ => none
  | fuel + 1 => parseSimpleUnaryExpressionF fuel

/-- `Parser.parseSimpleUnaryExpression`. -/
def parseSimpleUnaryExpressionF : ℕ → PM Expr
  | 0 => fun _ => none
  | fuel + 1 => do
      let tok ← pToken
      if tok = SK_Plus ∨ tok = SK_Minus ∨ tok = SK_Tilde ∨ tok = SK_Exclamation ∨
          tok = SK_ExclamationExclamation then do
        let op ← parseTokenP
        let operand ← parseSimpleUnaryExpressionF fuel
        return .prefixUnary op operand
      else if tok = SK_TypeofKeyword then do
        _ ← nextTokenP
        let e ← parseSimpleUnaryExpressionF fuel
        return .typeOf e
      else parseLeftHandSideExpressionOrHigherF fuel

/-- `Parser.parseLeftHandSideExpressionOrHigher`. -/
def parseLeftHandSideExpressionOrHigherF : ℕ → PM Expr
  | 0 => fun _ => none
  | fuel + 1 => do
      let e ← parseMemberExpressionOrHigherF fuel
      parseCallExpressionRestF fuel e

/-- `Parser.parseMemberExpressionOrHigher`. -/
def parseMemberExpressionOrHigherF : ℕ → PM Expr
  | 0 => fun _ => none
  | fuel + 1 => do
      let e ← parsePrimaryExpressionF fuel
      parseMemberExpressionRestF fuel e

/-- `Parser.parseMemberExpressionRest` (the chain must stay on the same
source line). -/
def parseMemberExpressionRestF : ℕ → Expr → PM Expr
  | 0, _ => fun _ => none
  | fuel + 1, expr => do
      let sc ← getSc
      if HasPrecedingLineBreak sc then return expr
      else do
        let dotToken ← gotTokenP SK_Dot
        let exclamationDot ← gotTokenP SK_ExclamationDot
        if dotToken.isSome ∨ exclamationDot.isSome then do
          let nm ← parseRightSideOfDot
          let nmStr := match nm with
            | .identifier v => v
            | _ => ""
          parseMemberExpressionRestF fuel (.selector expr nmStr exclamationDot.isSome)
        else return expr

/-- `Parser.parseCallExpressionRest`. -/
def parseCallExpressionRestF : ℕ → Expr → PM Expr
  | 0, _ => fun _ => none
  | fuel + 1, expr => do
      let sc ← getSc
      if HasPrecedingLineBreak sc then return expr
      else do
        let expr2 ← parseMemberExpressionRestF fuel expr
        if (← pToken) = SK_OpenParen then do
          let (args, ddd) ← parseArgumentListF fuel
          parseCallExpressionRestF fuel (.call expr2 args ddd)
        else return expr2

/-- `Parser.parseArgumentList`. -/
def parseArgumentListF : ℕ → PM (List Expr × Bool)
  | 0 => fun _ => none
  | fuel + 1 => do
      if !(← want SK_OpenParen) then return ([], false)
      else do
        let args ← parseDelimitedListF fuel 0 false
        let ddd ←
          if (← pToken) = SK_DotDotDot then do
            _ ← parseTokenP
            pure true
          else pure false
        _ ← want SK_CloseParen
        return (args, ddd)

/-- `Parser.parsePrimaryExpression`. -/
def parsePrimaryExpressionF : ℕ → PM Expr
  | 0 => fun _ => none
  | fuel + 1 => do
      let tok ← pToken
      if tok = SK_NumberLiteral ∨ tok = SK_StringLiteral ∨ tok = SK_NullKeyword ∨
          tok = SK_TrueKeyword ∨ tok = SK_FalseKeyword ∨ tok = SK_ThisKeyword ∨
          tok = SK_CtxKeyword then
        parseLiteralExpressionP
      else if tok = SK_OpenParen then parseParenthesizedExpressionF fuel
      else if tok = SK_OpenBracket then parseArrayLiteralExpressionF fuel
      else parseIdentifierP (some .M_Expression_expected)

/-- `Parser.parseParenthesizedExpression`. -/
def parseParenthesizedExpressionF : ℕ → PM Expr
  | 0 => fun _ => none
  | fuel + 1 => do
      _ ← want SK_OpenParen
      let e ← parseExpressionF fuel
      _ ← want SK_CloseParen
      return .paren e

/-- `Parser.parseArrayLiteralExpression`. -/
def parseArrayLiteralExpressionF : ℕ → PM Expr
  | 0 => fun _ => none
  | fuel + 1 => do
      _ ← want SK_OpenBracket
      let elems ← parseDelimitedListF fuel 1 false
      _ ← want SK_CloseBracket
      return .arrayLit elems

/-- `parseDelimitedList` (both uses have `allowTrailingComma = false` and
parse elements with `parseArgumentOrArrayLiteralElement`). -/
def parseDelimitedListF : ℕ → parsingContextM → Bool → PM (List Expr)
  | 0, _, _ => fun _ => none
  | fuel + 1, kind, allowTrailingComma => do
      let (list, commaStart) ← parseDelimitedLoopF fuel kind [] (-1)
      if commaStart ≥ 0 ∧ ¬allowTrailingComma then
        errorAtCurrentToken .M_Trailing_comma_not_allowed []
      return list

def parseDelimitedLoopF : ℕ → parsingContextM → List Expr → ℤ → PM (List Expr × ℤ)
  | 0, _, _, _ => fun _ => none
  | fuel + 1, kind, list, commaStart => do
      if ← isListElement kind then do
        let e ← parseArgumentOrArrayLiteralElementF fuel
        let list2 := list ++ [e]
        let sc ← getSc
        let commaStart2 := (sc.tokenPos : ℤ)
        if ← got SK_Comma then parseDelimitedLoopF fuel kind list2 commaStart2
        else do
          if ← isListTerminator kind then return (list2, -1)
          else do
            _ ← parseExpected SK_Comma none true
            parseDelimitedLoopF fuel kind list2 (-1)
      else do
        if ← isListTerminator kind then return (list, commaStart)
        else do
          _ ← reportErrorAndMoveToNextToken kind
          parseDelimitedLoopF fuel kind list commaStart

/-- `parseArgumentOrArrayLiteralElement` / `parseArgumentExpression`. -/
def parseArgumentOrArrayLiteralElementF : ℕ → PM Expr
  | 0 => fun _ => none
  | fuel + 1 => parseAssignmentExpressionOrHigherF fuel
end

/-- The panic value of `assertMsg` in `parseSourceFileWorker`: the Go
string `End of file not reached, stop at <pos>("<tokenText>")`, kept
structurally. -/
inductive PanicMsg where
  | assertEndOfFile (pos : ℕ) (tokenText : String)
deriving DecidableEq, Repr

/-- The observable parts of `SourceCode`: the root expression and the
accumulated diagnostics. -/
structure SourceCodeM where
  expression : Expr
  diagnostics : List Diagnostic

/-- The error returned by `ParseSourceCode`: a recovered panic
(`fmt.Errorf("%v", capture)`), or the first diagnostic formatted by
`FormatDiagnostic`; `embeddingOutOfFuel` is an artifact of the fuelled
embedding and is not a behaviour of the source. -/
inductive ParseErr where
  | recoveredPanic (m : PanicMsg)
  | firstDiagnostic (msg : String)
  | embeddingOutOfFuel
deriving DecidableEq, Repr

/-- `ComputeLineStarts` (scanner.go). -/
def computeLineStartsLoop : ℕ → List ℕ → ℕ → ℕ → List ℕ → List ℕ
  | 0, _, _, lineStart, result => result ++ [lineStart]
  | fuel + 1, text, pos, lineStart, result =>
      if pos < text.length then
        let (ch, size) := decodeAt text pos
        let pos := pos + size
        if ch = 13 then
          let pos := if pos + 1 < text.length ∧ text.getD pos 0 = 10 then pos + 1 else pos
          computeLineStartsLoop fuel text pos pos (result ++ [lineStart])
        else if ch = 10 then
          computeLineStartsLoop fuel text pos pos (result ++ [lineStart])
        else if 127 < ch ∧ IsLineBreak ch then
          computeLineStartsLoop fuel text pos pos (result ++ [lineStart])
        else computeLineStartsLoop fuel text pos lineStart result
      else result ++ [lineStart]

def ComputeLineStarts (text : List ℕ) : List ℕ :=
  computeLineStartsLoop (text.length + 1) text 0 0 []

/-- `BinarySearch` (scanner.go); `^low` is `-(low+1)`. -/
def binarySearchLoop : ℕ → List ℕ → ℕ → ℤ → ℤ → ℤ
  | 0, _, _, low, _ => -(low + 1)
  | fuel + 1, array, value, low, high =>
      if low ≤ high then
        let middle := low + (high - low) / 2
        let midValue : ℤ := array.getD middle.toNat 0
        if midValue = value then middle
        else if midValue > value then binarySearchLoop fuel array value low (middle - 1)
        else binarySearchLoop fuel array value (middle + 1) high
      else -(low + 1)

def BinarySearch (array : List ℕ) (value : ℕ) : ℤ :=
  binarySearchLoop (array.length + 2) array value 0 ((array.length : ℤ) - 1)

/-- `PositionFromOffsetWithCache` (scanner.go): 0-based line and column
of a byte offset. -/
def PositionFromOffset (offset : ℕ) (content : List ℕ) (lineStarts : List ℕ) : ℕ × ℕ :=
  if offset > content.length then (0, 0)
  else
    let ln := BinarySearch lineStarts offset
    let ln := if ln < 0 then -ln - 1 - 1 else ln
    (ln.toNat, offset - lineStarts.getD ln.toNat 0)

/-- `DiagnosticCategory.ToString`, lowercased as `FormatDiagnostic`
does. -/
def categoryToString (c : ℕ) : String :=
  if c = 0 then "warning" else if c = 1 then "error"
  else if c = 2 then "info" else "unknown"

/-- `FormatDiagnostic` (utilities.go):
`pos({line}, {col}) {category}({code}) {message}`. -/
def FormatDiagnostic (content : List ℕ) (d : Diagnostic) : String :=
  let lineStarts := ComputeLineStarts content
  let (line, col) := PositionFromOffset d.start content lineStarts
  "pos(" ++ natToDigits line ++ ", " ++ natToDigits col ++ ") " ++
    categoryToString d.category ++ "(" ++ natToDigits d.code ++ ") " ++ d.messageText

/-- `Parser.parseSourceFileWorker`: prime the scanner, parse the root
expression, then assert end of input (`assertMsg` panics otherwise — the
`Sum.inl` branch), consume the end-of-file token and package the
result. -/
def parseSourceFileWorkerF (fuel : ℕ) : PM (PanicMsg ⊕ SourceCodeM) := do
  _ ← nextTokenP
  let e ← parseExpressionF fuel
  let sc ← getSc
  if sc.token ≠ SK_EndOfFile then
    return .inl (.assertEndOfFile sc.pos (GetTokenText sc))
  else do
    _ ← parseTokenP
    let st ← get
    return .inr ⟨e, st.parseDiagnostics⟩

/-- `ParseSourceCode` (parser.go) with its deferred `recover`:
a panic inside the worker leaves the named `source` result nil and turns
the panic value into the returned error; otherwise, when diagnostics were
accumulated, the first one (formatted) becomes the error. -/
def ParseSourceCode (content : List ℕ) : Option SourceCodeM × Option ParseErr :=
  let st0 : PState := ⟨CreateScanner content, []⟩
  match parseSourceFileWorkerF (content.length * 4 + 64) st0 with
  | none => (none, some .embeddingOutOfFuel)
  | some (.inl pm, _) => (none, some (.recoveredPanic pm))
  | some (.inr src, _) =>
      match src.diagnostics with
      | [] => (some src, none)
      | d :: _ => (some src, some (.firstDiagnostic (FormatDiagnostic content d)))

/-! ## Helper lemmas -/

/-- The inlined assignment case of `resolve` agrees with the standalone
`resolveEqualBinaryExpression`. -/
theorem resolve_binary_equals (left right : Expr) (s : RState) :
    resolve (.binary left SK_Equals right) s =
      resolveEqualBinaryExpression left right s := by
  cases left <;> simp [resolve, resolveEqualBinaryExpression]

/-- Updating a Go map and reading the same key back. -/
theorem mapGet_mapSet_self (m : RState) (k : String) (v : Value) :
    mapGet (mapSet m k v) k = some v := by
  induction m with
  | nil => simp [mapGet, mapSet]
  | cons p rest ih =>
      by_cases h : p.1 = k <;> simp [mapGet, mapSet, h, ih]

/-- A key held by no entry of a Go map reads back as absent. -/
theorem mapGet_eq_none (m : RState) (k : String) (h : ∀ p ∈ m, p.1 ≠ k) :
    mapGet m k = none := by
  induction m with
  | nil => rfl
  | cons p rest ih =>
      simp [mapGet, h p (by simp)]
      exact ih fun q hq => h q (by simp [hq])

/-- No `$`-prefixed name is registered in the builtin table. -/
theorem innerLoad_dollar (k : String) (h : stringsHasPrefix k "$" = true) :
    innerLoad k = none := by
  apply mapGet_eq_none
  intro p hp hk
  subst hk
  have hall : (innerMapEntries.all fun p => !stringsHasPrefix p.1 "$") = true := rfl
  have := List.all_eq_true.1 hall p hp
  simp_all

/-- A successful run of the source's selector-chain walk yields exactly
the chain components. -/
theorem resolveSelecotrNames_ok {e : Expr} {parts : List String}
    (h : resolveSelecotrNames e = .ok parts) : specSelectorPath e = some parts := by
  induction e using resolveSelecotrNames.induct generalizing parts with
  | _ => simp_all [resolveSelecotrNames, specSelectorPath]

/-- Refinement: a successful run of the source's reference walk produces
exactly the fields described by the spec. -/
theorem referenceResolve_ok (e : Expr) :
    ∀ fs, referenceResolve e = .ok fs → fs = specReadFields e := by
  induction e using referenceResolve.induct with
  | motive_2 es => exact ∀ fs, referenceResolveList es = .ok fs → fs = specReadFieldsList es
  | _ =>
    intro fs h
    simp_all [referenceResolve, referenceResolveList, specReadFields, specReadFieldsList,
      resolveSelecotrNames_ok]

/-- `qFloorLog2` at `1/10`. -/
theorem qFloorLog2_tenth : qFloorLog2 (1 / 10 : ℚ) = -4 := by
  have hn : ((1 : ℚ) / 10).num = 1 := by norm_num
  have hd : ((1 : ℚ) / 10).den = 10 := by norm_num
  rw [qFloorLog2, hn, hd]
  norm_num [Nat.log2, qPow2]

/-- Binary64 rounding of `1/10`: the nearest double, which differs from
`1/10` itself. -/
theorem roundBinary64_tenth :
    roundBinary64 (1 / 10 : ℚ) = 3602879701896397 / 36028797018963968 := by
  have habs : |(1 : ℚ) / 10| = 1 / 10 := by norm_num
  rw [roundBinary64]
  rw [if_neg (by norm_num)]
  norm_num [habs, qFloorLog2_tenth, qPow2, roundHalfEven]

/-- `qFloorLog2` at `1/2`. -/
theorem qFloorLog2_half : qFloorLog2 (1 / 2 : ℚ) = -1 := by
  have hn : ((1 : ℚ) / 2).num = 1 := by norm_num
  have hd : ((1 : ℚ) / 2).den = 2 := by norm_num
  rw [qFloorLog2, hn, hd]
  norm_num [Nat.log2, qPow2]

/-- `1/2` is exactly representable in binary64. -/
theorem roundBinary64_half : roundBinary64 (1 / 2 : ℚ) = 1 / 2 := by
  have habs : |(1 : ℚ) / 2| = 1 / 2 := by norm_num
  rw [roundBinary64]
  rw [if_neg (by norm_num)]
  norm_num [habs, qFloorLog2_half, qPow2, roundHalfEven]

/-! ## Claim theorems -/

/-- C1 (counterexample): with `a = false` (falsy) and `b = ~''`, the claim
predicts that `b` is not evaluated and `a && b` yields `false`; the
evaluator instead evaluates `b` and fails with `b`'s type error. -/
theorem c1_counterexample :
    toBool (.bool false) = false ∧
    resolve (.binary (.literal SK_FalseKeyword "") SK_AmpersandAmpersand
        (.prefixUnary SK_Tilde (.literal SK_StringLiteral ""))) [] =
      ([], .error (.unaryNotSupportType "~" "string")) := by
  constructor
  · rfl
  · simp [resolve, resolveUnaryOp, resolveTildeUnaryExpression, goTypeName, formatInput]

/-- C1 (amended): `a && b` and `a || b` always evaluate both operands, in
order, threading the runner state and propagating either operand's error;
when both succeed the result is the original (non-coerced) value of the
deciding operand — `a`'s value when it decides (falsy for `&&`, truthy for
`||`), otherwise `b`'s value. -/
theorem c1_logical_ops_evaluate_both (a b : Expr) (s : RState) :
    resolve (.binary a SK_AmpersandAmpersand b) s =
      (match resolve a s with
       | (s1, .error e) => (s1, .error e)
       | (s1, .ok v1) =>
           match resolve b s1 with
           | (s2, .error e) => (s2, .error e)
           | (s2, .ok v2) => (s2, .ok (if toBool v1 then v2 else v1))) ∧
    resolve (.binary a SK_BarBar b) s =
      (match resolve a s with
       | (s1, .error e) => (s1, .error e)
       | (s1, .ok v1) =>
           match resolve b s1 with
           | (s2, .error e) => (s2, .error e)
           | (s2, .ok v2) => (s2, .ok (if toBool v1 then v1 else v2))) := by
  constructor <;>
  · simp only [resolve]
    norm_num
    rcases resolve a s with ⟨s1, r1⟩
    cases r1 with
    | error e => rfl
    | ok v1 =>
        dsimp only
        rcases resolve b s1 with ⟨s2, r2⟩
        cases r2 with
        | error e => rfl
        | ok v2 =>
            cases htb : toBool v1 <;>
              simp [resolveBinaryOp, resolveAmpersandAmpersandBinaryExpression,
                resolveBarBarBinaryExpression, htb, formatInput]

/-- C2 (counterexample): the claim predicts `0 == null` is `false`; the
evaluator coerces `null` through `convToNumber` (to `0`) because the left
operand is a number, and yields `true`. -/
theorem c2_counterexample :
    resolve (.binary (.literal SK_NumberLiteral "0") SK_EqualsEquals
        (.literal SK_NullKeyword "null")) [] = ([], .ok (.bool true)) := by
  simp [resolve, resolveBinaryOp, valueLikeEqualTo, convToNumber, decFromString, takeDigits,
    digitVal, formatInput, decCmp, IsNull]

/-- C2 (amended): under loose `==`, `null == null` is `true` and
`null == v` is `false` for every non-Null `v`; but in the direction
`v == null` the comparison is driven by `v`'s type: for a non-Null,
non-NaN `v` it is `true` exactly when `v` is the number `0`, the boolean
`false`, or the string `"<nil>"` (the `fmt` rendering of nil). -/
theorem c2_loose_equality_with_null (v : Value) (hnn : IsNull v = false)
    (hnan : v ≠ .num .nan) :
    valueLikeEqualTo .null .null = true ∧
    valueLikeEqualTo .null v = false ∧
    (valueLikeEqualTo v .null = true ↔
      v = .num (.rat 0) ∨ v = .bool false ∨ v = .str "<nil>") := by
  refine ⟨rfl, ?_, ?_⟩
  · cases v <;> simp_all [valueLikeEqualTo, goIfaceEq, IsNull, convToNumber, convToString,
      goFormatV, decCmp]
  · cases v with
    | num d =>
        cases d with
        | nan => simp_all
        | rat q =>
            simp [valueLikeEqualTo, convToNumber, IsNull, decCmp]
            rcases lt_trichotomy q 0 with h | h | h
            · simp [h, ne_of_lt h]
            · subst h; norm_num
            · simp [not_lt.2 h.le, h, ne_of_gt h]
    | bool b => cases b <;> simp [valueLikeEqualTo, convToNumber, IsNull, decCmp] <;> norm_num
    | str s => simp [valueLikeEqualTo, convToString, goFormatV]
    | _ => simp_all [valueLikeEqualTo, goIfaceEq, IsNull]

/-- C2 (witness): the amended characterization at `v = Bool false`:
`false == null` evaluates to `true`. -/
theorem c2_witness :
    IsNull (Value.bool false) = false ∧ Value.bool false ≠ .num .nan ∧
    valueLikeEqualTo (.bool false) .null = true := by
  have h := c2_loose_equality_with_null (.bool false) rfl (by simp)
  exact ⟨rfl, by simp, h.2.2.2 (Or.inr (Or.inl rfl))⟩

/-- C3: the evaluator has no case for `SK_QuestionQuestion`; after
evaluating both operands, `a ?? b` falls through to `return nil, nil`, so
both `1 ?? 2` (claim: `1`) and `null ?? 2` (claim: `2`) yield `Null`. -/
theorem c3_nullish_coalescing_unimplemented :
    resolve (.binary (.literal SK_NumberLiteral "1") SK_QuestionQuestion
        (.literal SK_NumberLiteral "2")) [] = ([], .ok .null) ∧
    resolve (.binary (.literal SK_NullKeyword "null") SK_QuestionQuestion
        (.literal SK_NumberLiteral "2")) [] = ([], .ok .null) := by
  constructor <;>
    simp [resolve, resolveBinaryOp, formatInput, decFromString, takeDigits, digitVal]

/-- C4: `-` with a string left operand returns the concatenation
`s1 + s2` (the source's string branch of `resolveMinusBinaryExpressino`),
so `'5' - '3'` yields the string `"53"` rather than `Num 2`; with numeric
operands the same operator does subtract. -/
theorem c4_minus_on_strings_concatenates :
    resolve (.binary (.literal SK_StringLiteral "5") SK_Minus
        (.literal SK_StringLiteral "3")) [] = ([], .ok (.str "53")) ∧
    resolve (.binary (.literal SK_NumberLiteral "5") SK_Minus
        (.literal SK_NumberLiteral "3")) [] = ([], .ok (.num (.rat 2))) := by
  refine ⟨?_, ?_⟩ <;>
      simp [resolve, resolveBinaryOp, resolveMinusBinaryExpressino, convToString, convToNumber,
        formatInput, decFromString, takeDigits, digitVal, decSub] <;>
    norm_num

/-- C5: `~x` takes the `int64` part of `x` and wraps it through
`uint64` with **no** complement, so `~0` evaluates to `Num 0` (the claim
predicts `-1`) and `~5` evaluates to `Num 5` (the claim predicts `-6`). -/
theorem c5_tilde_no_complement :
    resolve (.prefixUnary SK_Tilde (.literal SK_NumberLiteral "0")) [] =
      ([], .ok (.num (.rat 0))) ∧
    resolve (.prefixUnary SK_Tilde (.literal SK_NumberLiteral "5")) [] =
      ([], .ok (.num (.rat 5))) := by
  refine ⟨?_, ?_⟩ <;>
      simp [resolve, resolveUnaryOp, resolveTildeUnaryExpression, decFromString, takeDigits,
        digitVal, formatInput, decInt64, ratTrunc] <;>
      norm_num <;>
    simp

/-- C6: evaluating `lhs = e` (i) errors, without evaluating `e` or
changing the runner, whenever `lhs` is not a `$`-prefixed identifier;
(ii) for a `$`-prefixed identifier it evaluates `e`, binds the name in the
runner's `this` map and returns the assigned value; (iii) the binding is
readable by a later identifier resolution on the same runner; and
concretely `$x = 3, $x + 4` evaluates to `7` leaving `$x ↦ 3` in the
runner, from which a second evaluation still reads `$x`. -/
theorem c6_assignment (lhs rhs : Expr) (s : RState) (name : String) :
    ((∀ nm, lhs = .identifier nm → stringsHasPrefix nm "$" = false) →
      (resolve (.binary lhs SK_Equals rhs) s).1 = s ∧
        ((resolve (.binary lhs SK_Equals rhs) s).2.isOk = false)) ∧
    (stringsHasPrefix name "$" = true →
      resolve (.binary (.identifier name) SK_Equals rhs) s =
        (match resolve rhs s with
         | (s1, .error err) => (s1, .error err)
         | (s1, .ok v) => (SetThisValue s1 name v, .ok v))) ∧
    (∀ v, stringsHasPrefix name "$" = true →
      resolve (.identifier name) (SetThisValue s name v) =
        (SetThisValue s name v, .ok v)) ∧
    resolve (.binary (.binary (.identifier "$x") SK_Equals (.literal SK_NumberLiteral "3"))
        SK_Comma (.binary (.identifier "$x") SK_Plus (.literal SK_NumberLiteral "4"))) [] =
      ([("$x", .num (.rat 3))], .ok (.num (.rat 7))) ∧
    resolve (.identifier "$x") [("$x", .num (.rat 3))] =
      ([("$x", .num (.rat 3))], .ok (.num (.rat 3))) := by
  refine ⟨?_, ?_, ?_, ?_, ?_⟩
  · intro hnm
    cases lhs with
    | identifier nm => simp [resolve, hnm nm rfl, Except.isOk, Except.toBool]
    | _ => simp [resolve, Except.isOk, Except.toBool]
  · intro hpre
    simp only [resolve, hpre, if_true]
    rcases resolve rhs s with ⟨s1, r1⟩
    cases r1 <;> simp [formatInput]
  · intro v hpre
    simp [resolve, resolveIdentifier, innerLoad_dollar name hpre, SetThisValue,
      mapGet_mapSet_self, formatInput]
  · simp [resolve, resolveIdentifier, resolveBinaryOp, resolvePlusBinaryExpression,
      resolveCommaBinaryExpression, innerLoad_dollar "$x" rfl,
      (show stringsHasPrefix "$x" "$" = true from rfl),
      SetThisValue, mapGet, mapSet, formatInput, convToNumber,
      decAdd, decFromString, takeDigits, digitVal]
    norm_num
  · simp [resolve, resolveIdentifier, innerLoad_dollar "$x" rfl, mapGet, formatInput]

/-- C6 (witness): the assignment theorem instantiated — a non-`$`
left-hand side errors without touching the state, `$y = 2` binds and
returns `2`, and the concrete `$x` scenario. -/
theorem c6_witness :
    ((resolve (.binary (.identifier "y") SK_Equals (.literal SK_NumberLiteral "2")) []).1 =
        ([] : RState) ∧
      (resolve (.binary (.identifier "y") SK_Equals
          (.literal SK_NumberLiteral "2")) []).2.isOk = false) ∧
    resolve (.binary (.identifier "$y") SK_Equals (.literal SK_NumberLiteral "2")) [] =
      (match resolve (.literal SK_NumberLiteral "2") [] with
       | (s1, .error err) => (s1, .error err)
       | (s1, .ok v) => (SetThisValue s1 "$y" v, .ok v)) ∧
    resolve (.identifier "$y") (SetThisValue [] "$y" (.num (.rat 2))) =
      (SetThisValue [] "$y" (.num (.rat 2)), .ok (.num (.rat 2))) ∧
    resolve (.binary (.binary (.identifier "$x") SK_Equals (.literal SK_NumberLiteral "3"))
        SK_Comma (.binary (.identifier "$x") SK_Plus (.literal SK_NumberLiteral "4"))) [] =
      ([("$x", .num (.rat 3))], .ok (.num (.rat 7))) := by
  have h := c6_assignment (.identifier "y") (.literal SK_NumberLiteral "2") [] "$y"
  refine ⟨h.1 ?_, h.2.1 rfl, h.2.2.1 (.num (.rat 2)) rfl, h.2.2.2.1⟩
  intro nm hnm
  cases hnm
  rfl

/-- C8: the fields returned by `ResolveReferenceFields` are exactly the
identifiers and dot-joined selector paths the formula reads (with call
callees excluded, as `specReadFields` states), duplicates removed; the
not-local variant additionally removes every `$`-prefixed name. -/
theorem c8_reference_extraction (e : Expr) (l : List String)
    (h : ResolveReferenceFields e = .ok l) :
    (∀ f, f ∈ l ↔ f ∈ specReadFields e) ∧ l.Nodup ∧
      ResolveReferenceFieldsNotLocal e = .ok (l.filter fun f => ¬stringsHasPrefix f "$") ∧
      ∀ f ∈ l.filter (fun f => ¬stringsHasPrefix f "$"), stringsHasPrefix f "$" = false := by
  rw [ResolveReferenceFields] at h
  cases heq : referenceResolve e with
  | error err => rw [heq] at h; cases h
  | ok fs =>
      rw [heq] at h
      cases h
      have hspec := referenceResolve_ok e fs heq
      subst hspec
      refine ⟨?_, ?_, ?_, ?_⟩
      · intro f
        simp [stringsUniq, List.mem_dedup]
      · exact List.nodup_dedup _
      · rw [ResolveReferenceFieldsNotLocal, ResolveReferenceFields, heq]
      · intro f hf
        rcases List.mem_filter.1 hf with ⟨_, hp⟩
        simpa using hp

/-- C8 (witness): the extraction theorem at the repository's own test
formula `person.name + person.age + lala + run(a, b, c, d)`. -/
theorem c8_witness :
    ("person.name" ∈ (["person.name", "person.age", "lala", "a", "b", "c", "d"] :
        List String) ↔
      "person.name" ∈ specReadFields (.binary (.binary (.binary
        (.selector (.identifier "person") "name" false) SK_Plus
        (.selector (.identifier "person") "age" false)) SK_Plus (.identifier "lala")) SK_Plus
        (.call (.identifier "run")
          [.identifier "a", .identifier "b", .identifier "c", .identifier "d"] false))) ∧
    (["person.name", "person.age", "lala", "a", "b", "c", "d"] : List String).Nodup := by
  have h := c8_reference_extraction (.binary (.binary (.binary
      (.selector (.identifier "person") "name" false) SK_Plus
      (.selector (.identifier "person") "age" false)) SK_Plus (.identifier "lala")) SK_Plus
      (.call (.identifier "run")
        [.identifier "a", .identifier "b", .identifier "c", .identifier "d"] false))
    ["person.name", "person.age", "lala", "a", "b", "c", "d"]
    (by
      have hnd : (["person.name", "person.age", "lala", "a", "b", "c", "d"] :
          List String).Nodup := by simp
      simp [ResolveReferenceFields, referenceResolve, referenceResolveList,
        resolveSelecotrNames, stringsJoin, stringsUniq, List.dedup_eq_self.2 hnd])
  exact ⟨h.1 "person.name", h.2.1⟩

/-- C9: whenever an evaluation succeeds with a decimal result, the public
`Resolve` converts that result to a `float64` (binary64 rounding) before
returning it — non-decimal results pass through unchanged — and the
conversion is genuinely lossy: the decimal `1/10` does not survive the
round trip, while all intermediate arithmetic is exact decimal. -/
theorem c9_public_resolve_converts_to_float64 :
    (∀ (e : Expr) (s s1 : RState) (d : Dec), resolve e s = (s1, .ok (.num d)) →
        Resolve e s = (s1, .ok (.goFloat (decFloat64 d)))) ∧
    (∀ (e : Expr) (s s1 : RState) (v : Value), resolve e s = (s1, .ok v) →
        Resolve e s = (s1, .ok (try2Float64 v))) ∧
    decFloat64 (.rat (1 / 10)) = .fin (3602879701896397 / 36028797018963968) ∧
    decFloat64 (.rat (1 / 10)) ≠ .fin (1 / 10) := by
  have hval : decFloat64 (.rat (1 / 10)) = .fin (3602879701896397 / 36028797018963968) := by
    rw [decFloat64]
    rw [roundBinary64_tenth]
    rw [if_neg (by norm_num [qPow2]), if_neg (by norm_num [qPow2])]
  refine ⟨?_, ?_, hval, ?_⟩
  · intro e s s1 d h
    simp [Resolve, h, try2Float64]
  · intro e s s1 v h
    simp [Resolve, h]
  · rw [hval]
    intro hc
    rw [F64.fin.injEq] at hc
    norm_num at hc

/-- C9 (witness): evaluating the literal `0.5` and crossing the public
boundary — `Resolve` returns the `float64` image of the decimal result. -/
theorem c9_witness :
    Resolve (.literal SK_NumberLiteral "0.5") [] =
      ([], .ok (.goFloat (decFloat64 (.rat (1 / 2))))) := by
  have hres : resolve (.literal SK_NumberLiteral "0.5") [] = ([], .ok (.num (.rat (1 / 2)))) := by
    simp [resolve, decFromString, takeDigits, digitVal, formatInput]
    norm_num
  exact c9_public_resolve_converts_to_float64.1 (.literal SK_NumberLiteral "0.5") [] []
    (.rat (1 / 2)) hres

/-- C10: the built-in `round` rounds a freshly created zero decimal
(`newDecimalBig().Round(0)`) and ignores its argument entirely: it returns
`Num 0` for every input. -/
theorem c10_round_ignores_argument : ∀ v : Dec, funRound v = .ok (.rat 0) := by
  intro v
  simp [funRound, bigRound, newDecimalBig]

/-- C7: parse totality fails on the input `1 2` (bytes 49, 32, 50).
`parseExpression` stops after the first number because `2` is not an
operator, so `parseSourceFileWorker` hits
`assertMsg(p.token() == SK_EndOfFile, ...)`, which panics with
`End of file not reached, stop at 3("2")`; the deferred `recover` turns
the panic into the returned error and the named `source` result stays
nil.  So `ParseSourceCode` returns neither a source AST nor an
accumulated-diagnostics error on this input — against the claim, the
error is the recovered panic, not a first diagnostic, and no AST is
returned.  (That no panic propagates to the caller is the part of the
claim the code does satisfy: the recovered panic is an ordinary return
value.) -/
theorem c7_parse_totality_fails_on_unconsumed_input :
    ParseSourceCode [49, 32, 50] =
      (none, some (ParseErr.recoveredPanic (PanicMsg.assertEndOfFile 3 "2"))) := rfl

end Formula
